import Mathlib

/-!
Verification development for the UnifiedAudioRadio safety-perimeter cog
(src/UnifiedAudioRadio/unifiedaudioradio.py).

The durable configuration store is modelled as a `Config` record mirroring the
fields registered in `register_global`; Python `None` / empty-string falsiness
is modelled with `Option` values and an explicit `truthy` test.  The external
player, voice client and chat surface are modelled by an `Env` record of
oracles; monotonic time is a `Nat` of seconds.  Side-effecting calls that the
code fires are recorded in an `Act` trace.
-/

set_option maxHeartbeats 1000000

/-- Python truthiness of an optional string: `None` and `""` are falsy. -/
def truthy (o : Option String) : Bool :=
  match o with
  | none => false
  | some s => ¬ s.isEmpty

/-- Durable configuration fields of the cog (register_global). -/
structure Config where
  bound : Bool
  allowed_guild_id : Option Nat
  control_text_channel_id : Option Nat
  allowed_voice_channel_id : Option Nat
  audit_channel_id : Option Nat
  bound_owner_user_id : Option Nat
  panic_locked : Bool
  autopanic_enabled : Bool
  autopanic_reason : Option String
  suspended : Bool
  suspend_reason : Option String
  hard_mode : Bool
  stream_url : Option String
  station_name : Option String
  last_station_name : Option String
  last_station_stream_url : Option String
  last_search_query : Option String
  audio_intent_active : Bool
  audio_intent_started : Nat
  last_youtube_query : Option String
  panic_resume_kind : Option String
  panic_resume_station_name : Option String
  panic_resume_station_url : Option String
  panic_resume_youtube_query : Option String
  min_bitrate_kbps : Int
  block_tags_csv : String
  dj_user_id : Option Nat
  periodic_reassure_enabled : Bool
  reassure_interval_in_vc_sec : Option Int
  reassure_interval_out_vc_sec : Option Int
  reassure_fallback_channel_id : Option Nat
  dj_sleep_reminder_enabled : Bool
  dj_sleep_after_minutes : Option Int
  dj_sleep_repeat_minutes : Option Int
  deriving DecidableEq

/-- A radio-browser station entry (class Station). -/
structure Station where
  name : String
  country : String
  bitrate : Int
  tags : String
  stream_url : String
  deriving DecidableEq

/-- Process-local cog state touched by command handlers. -/
structure St where
  cfg : Config
  allow_summon_until : Nat
  home_grace_until : Nat
  stations_cache : List Station
  deriving DecidableEq

/-- Command invocation context (the slice of discord ctx the code reads). -/
structure Ctx where
  guild : Option Nat
  channel : Nat
  author : Nat
  author_voice : Option Nat
  is_owner : Bool
  content : String
  deriving DecidableEq

/-- Oracles for the external player / voice subsystem. -/
structure Env where
  playing : Bool
  bot_home : Bool
  summon_ok : Bool
  play_ok : String → Bool

/-- Side effects the cog fires, recorded as a trace. -/
inductive Act where
  | summon : Act
  | stop : Act
  | disconnect : Act
  | play (q : String) : Act
  | send (m : String) : Act
  | notifyCtl (title : String) : Act
  | auditSec (reason : String) : Act
  | djStart : Act
  | djStop : Act
  | reminder (level : Nat) (mins : Nat) : Act
  | finalNote : Act
  | reassureIn : Act
  | reassureOut : Act
  deriving DecidableEq

/-- _radio_active: both the stream url and the station name are truthy. -/
def radio_active (c : Config) : Bool :=
  truthy c.stream_url && truthy c.station_name

/-- _any_active: radio saved, audio intent flagged, or the player reports playing. -/
def any_active (playing : Bool) (c : Config) : Bool :=
  radio_active c || c.audio_intent_active || playing

/-- _clear_radio_state. -/
def clear_radio_state (c : Config) : Config :=
  { c with stream_url := none, station_name := none }

/-- _clear_audio_intent. -/
def clear_audio_intent (c : Config) : Config :=
  { c with audio_intent_active := false, audio_intent_started := 0 }

/-- _suspend (the flag writes; presence update is a non-state side effect). -/
def suspendCfg (reason : String) (c : Config) : Config :=
  { c with suspended := true, suspend_reason := some reason }

/-- _unsuspend. -/
def unsuspendCfg (c : Config) : Config :=
  { c with suspended := false, suspend_reason := none }

/-- _snapshot_for_panic: record what was active at the instant panic engages. -/
def snapshot_for_panic (playing : Bool) (c : Config) : Config :=
  if radio_active c then
    { c with panic_resume_kind := some "radio",
             panic_resume_station_name := c.station_name,
             panic_resume_station_url := c.stream_url,
             panic_resume_youtube_query := none }
  else if (c.audio_intent_active || playing) && truthy c.last_youtube_query then
    { c with panic_resume_kind := some "youtube",
             panic_resume_youtube_query := c.last_youtube_query,
             panic_resume_station_name := none,
             panic_resume_station_url := none }
  else
    { c with panic_resume_kind := none,
             panic_resume_station_name := none,
             panic_resume_station_url := none,
             panic_resume_youtube_query := none }

/-- _clear_panic_snapshot. -/
def clear_panic_snapshot (c : Config) : Config :=
  { c with panic_resume_kind := none,
           panic_resume_station_name := none,
           panic_resume_station_url := none,
           panic_resume_youtube_query := none }

/-- _autopanic, state transition part.  The `async with self._autopanic_lock`
mutex serialises concurrent triggers; a batch of concurrent triggers is
therefore modelled as a fold of this function over the list of reasons in
lock-acquisition order. -/
def autopanic (playing : Bool) (reason : String) (c : Config) : Config :=
  if ¬ c.autopanic_enabled then c
  else if c.panic_locked then c
  else
    let c1 := snapshot_for_panic playing c
    let c2 := { c1 with panic_locked := true, autopanic_reason := some reason }
    clear_audio_intent (clear_radio_state c2)

/-- rrpanic, state transition part (guild present, bound check, then the
unconditional manual panic writes). -/
def rrpanicC (hasGuild : Bool) (playing : Bool) (reason : String) (c : Config) : Config :=
  if ¬ hasGuild then c
  else if ¬ c.bound then c
  else
    let c1 := snapshot_for_panic playing c
    let c2 := { c1 with panic_locked := true, autopanic_reason := some reason }
    clear_audio_intent (clear_radio_state c2)

/-- Failure flags for the side effects fired inside a panic transition. -/
structure Fails where
  disconnect : Bool
  presence : Bool
  audit : Bool
  notify : Bool
  deriving DecidableEq

/-- An external call that raises when its failure flag is set. -/
def extCall (fails : Bool) : Except Unit Unit :=
  if fails then Except.error () else Except.ok ()

/-- A `try: ... except Exception: pass` wrapper around an external call. -/
def swallowIt (x : Except Unit Unit) : Except Unit Unit :=
  match x with
  | Except.ok _ => Except.ok ()
  | Except.error _ => Except.ok ()

/-- rrpanic with explicit side-effect failures: the exception-or-result
structure of the handler.  Each external call sits under the same
`try/except` (or internally swallowing helper) as in the source, so a raised
exception at a wrapped call cannot abort the remaining writes. -/
def rrpanicE (f : Fails) (hasGuild : Bool) (playing : Bool) (reason : String)
    (c : Config) : Except Unit Config := do
  if ¬ hasGuild then return c
  if ¬ c.bound then return c
  let c1 := snapshot_for_panic playing c
  let c2 := { c1 with panic_locked := true, autopanic_reason := some reason }
  let _ ← swallowIt (extCall f.disconnect)
  let c3 := clear_audio_intent (clear_radio_state c2)
  let _ ← swallowIt (extCall f.presence)
  let _ ← swallowIt (extCall f.audit)
  let _ ← swallowIt (extCall f.notify)
  return c3

/-- _autopanic with explicit side-effect failures, mirroring `rrpanicE`. -/
def autopanicE (f : Fails) (playing : Bool) (reason : String)
    (c : Config) : Except Unit Config := do
  if ¬ c.autopanic_enabled then return c
  if c.panic_locked then return c
  let c1 := snapshot_for_panic playing c
  let c2 := { c1 with panic_locked := true, autopanic_reason := some reason }
  let _ ← swallowIt (extCall f.disconnect)
  let c3 := clear_audio_intent (clear_radio_state c2)
  let _ ← swallowIt (extCall f.presence)
  let _ ← swallowIt (extCall f.audit)
  let _ ← swallowIt (extCall f.notify)
  return c3

/-- Lowercase a Python string (str.lower), as a char list. -/
def lowerL (s : String) : List Char := s.data.map Char.toLower

/-- Python `needle in hay` substring test on char lists. -/
def infixIn (needle hay : List Char) : Bool :=
  match hay with
  | [] => needle.isEmpty
  | _ :: t => needle.isPrefixOf hay || infixIn needle t

/-- Python str.strip on a char list. -/
def trimL (l : List Char) : List Char :=
  ((l.dropWhile Char.isWhitespace).reverse.dropWhile Char.isWhitespace).reverse

/-- Python "".split(",") on a char list. -/
def splitComma (l : List Char) : List (List Char) :=
  match l with
  | [] => [[]]
  | ch :: t =>
    let r := splitComma t
    if ch = ',' then [] :: r
    else
      match r with
      | [] => [[ch]]
      | h :: t2 => (ch :: h) :: t2

/-- _parse_blocklist: comma-split, strip, lowercase, drop empties. -/
def parse_blocklist (csv : String) : List (List Char) :=
  ((splitComma csv.data).map (fun t => (trimL t).map Char.toLower)).filter
    (fun t => ¬ t.isEmpty)

/-- _blocked_terms. -/
def blocked_terms (c : Config) : List (List Char) :=
  parse_blocklist c.block_tags_csv

/-- _text_matches_blocklist. -/
def text_matches_blocklist (text : String) (blocked : List (List Char)) : Bool :=
  blocked.any (fun b => ¬ b.isEmpty && infixIn b (lowerL text))

/-- _looks_like_youtube. -/
def looks_like_youtube (text : String) : Bool :=
  let t := lowerL text
  ["youtu.be", "youtube.com", "youtube ", " yt ", "ytsearch:", "youtubemusic"].any
    (fun x => infixIn x.data t)

/-- _blocked_by_tags: match a station's tags and name against blocked terms. -/
def blocked_by_tags (s : Station) (blocked : List (List Char)) : Bool :=
  let blob := lowerL (s.tags ++ " " ++ s.name)
  blocked.any (fun t => ¬ t.isEmpty && infixIn t blob)

/-- _extract_play_query: the text after the command word, stripped. -/
def extract_play_query (content : String) : Option String :=
  let c := trimL content.data
  if c.isEmpty then none
  else
    let rest := (c.dropWhile (fun ch => ¬ ch.isWhitespace)).dropWhile Char.isWhitespace
    if rest.isEmpty then none
    else
      let q := trimL rest
      if q.isEmpty then none else some (String.mk q)

/-- _require_owner_in_allowed_vc: operator must sit in the locked voice channel. -/
def require_owner_in_allowed_vc (authorVoice : Option Nat) (c : Config) : Bool :=
  match c.allowed_voice_channel_id with
  | none => false
  | some v =>
    match authorVoice with
    | none => false
    | some av => av == v

/-- _audio_cmd_is_allowed: the full tripwire perimeter check. -/
def audio_cmd_is_allowed (ctx : Ctx) (c : Config) : Bool :=
  match ctx.guild with
  | none => false
  | some g =>
    c.bound &&
    (match c.allowed_guild_id with
     | none => true
     | some ag => g == ag) &&
    ctx.is_owner &&
    (match c.control_text_channel_id with
     | none => true
     | some cc => ctx.channel == cc) &&
    (match c.allowed_voice_channel_id with
     | none => false
     | some v =>
       match ctx.author_voice with
       | none => false
       | some av => av == v)

/-- AUDIO_SUMMON_ALIASES. -/
def summonAliases : List String := ["summon", "join", "connect"]

/-- AUDIO_DISCONNECT_ALIASES. -/
def disconnectAliases : List String := ["disconnect", "dc", "leave"]

/-- AUDIO_STOP_ALIASES. -/
def stopAliases : List String := ["stop"]

/-- AUDIO_PLAY_ALIASES. -/
def playAliases : List String := ["play", "local", "playurl", "playlist"]

/-- The perimeter-violation reason string used by the tripwire. -/
def violationReason (nm : String) : String :=
  "Audio `" ++ nm ++ "` used outside perimeter while active"

/-- The play-alias block of the authorized tripwire path. -/
def tripwire_play (nm content : String) (now : Nat) (st : St) : St × List Act :=
  if nm ∈ playAliases then
    if looks_like_youtube content then
      let yt0 := (extract_play_query content).getD content
      let yt_query := String.mk (yt0.data.take 4000)
      let blocked := blocked_terms st.cfg
      if ¬ blocked.isEmpty ∧ text_matches_blocklist yt_query blocked then
        ({ st with cfg := clear_audio_intent st.cfg },
         [Act.send "🚫 Blocked by safety filter (matched blocked terms in the request)."])
      else
        let c1 := st.cfg
        let c2 :=
          if radio_active c1 then
            clear_radio_state
              { c1 with last_station_name := c1.station_name,
                        last_station_stream_url := c1.stream_url }
          else c1
        let c3 := { c2 with
          audio_intent_active := true, audio_intent_started := now,
          last_youtube_query := some yt_query }
        ({ st with cfg := c3 }, [Act.djStart])
    else (st, [])
  else (st, [])

/-- The stop-alias block of the authorized tripwire path. -/
def tripwire_stop (nm : String) (st : St) : St × List Act :=
  if nm ∈ stopAliases then
    ({ st with cfg := clear_audio_intent (clear_radio_state st.cfg) }, [Act.djStop])
  else (st, [])

/-- The disconnect-alias block of the authorized tripwire path. -/
def tripwire_disc (nm : String) (now : Nat) (st : St) : St × List Act :=
  if nm ∈ disconnectAliases then
    ({ st with
       cfg := clear_audio_intent (clear_radio_state st.cfg),
       home_grace_until := now + 15, allow_summon_until := now + 10 }, [Act.djStop])
  else (st, [])

/-- on_command: the audio tripwire listener. -/
def on_command (cogAudio : Bool) (cmdName : String) (e : Env) (now : Nat)
    (ctx : Ctx) (st : St) : St × List Act :=
  if ctx.guild = none then (st, [])
  else if ¬ cogAudio then (st, [])
  else
    let nm := String.mk (lowerL cmdName)
    let allowed := audio_cmd_is_allowed ctx st.cfg
    if nm ∈ summonAliases ∧ now ≤ st.allow_summon_until then (st, [])
    else if allowed then
      let p1 := tripwire_play nm ctx.content now st
      let p2 := tripwire_stop nm p1.1
      let p3 := tripwire_disc nm now p2.1
      (p3.1, p1.2 ++ p2.2 ++ p3.2)
    else if ¬ any_active e.playing st.cfg then (st, [])
    else if st.cfg.hard_mode then
      ({ st with cfg := autopanic e.playing (violationReason nm) st.cfg }, [])
    else
      ({ st with cfg := suspendCfg (violationReason nm) st.cfg },
       [Act.notifyCtl "🟡 Suspended (Soft)"])

/-- Result of _attempt_resume_after_unlock. -/
structure ResumeOut where
  cfg : Config
  ok : Bool
  msg : String
  plays : List String
  deriving DecidableEq

/-- RestoreMemory station fallback (tail of _attempt_resume_after_unlock). -/
def memory_station (e : Env) (c : Config) (acc : List String) : ResumeOut :=
  match c.last_station_name, c.last_station_stream_url with
  | some n2, some u2 =>
    if ¬ n2.isEmpty ∧ ¬ u2.isEmpty then
      let cb := { c with stream_url := some u2, station_name := some n2 }
      if e.play_ok u2 then ⟨cb, true, "Resumed from memory: Radio.", acc ++ [u2]⟩
      else ⟨cb, false, "No resume targets found.", acc ++ [u2]⟩
    else ⟨c, false, "No resume targets found.", acc⟩
  | _, _ => ⟨c, false, "No resume targets found.", acc⟩

/-- RestoreMemory fallbacks (last youtube query, then last station). -/
def memory_fallback (e : Env) (now : Nat) (c : Config) (acc : List String) : ResumeOut :=
  match c.last_youtube_query with
  | some q2 =>
    if ¬ q2.isEmpty then
      let ca := { c with audio_intent_active := true, audio_intent_started := now }
      if e.play_ok q2 then ⟨ca, true, "Resumed from memory: YouTube.", acc ++ [q2]⟩
      else memory_station e ca (acc ++ [q2])
    else memory_station e c acc
  | none => memory_station e c acc

/-- _attempt_resume_after_unlock: snapshot first, then RestoreMemory. -/
def attempt_resume (hasGuild : Bool) (e : Env) (now : Nat) (c0 : Config) : ResumeOut :=
  if ¬ hasGuild then ⟨c0, false, "No guild.", []⟩
  else
    let c := clear_audio_intent (clear_radio_state c0)
    let kind := c.panic_resume_kind.getD ""
    if kind = "youtube" then
      match c.panic_resume_youtube_query with
      | some q =>
        if ¬ q.isEmpty then
          let ca := { c with audio_intent_active := true, audio_intent_started := now }
          if e.play_ok q then ⟨ca, true, "Resumed from panic snapshot: YouTube.", [q]⟩
          else memory_fallback e now ca [q]
        else memory_fallback e now c []
      | none => memory_fallback e now c []
    else if kind = "radio" then
      match c.panic_resume_station_name, c.panic_resume_station_url with
      | some n, some u =>
        if ¬ n.isEmpty ∧ ¬ u.isEmpty then
          let ca := { c with stream_url := some u, station_name := some n }
          if e.play_ok u then ⟨ca, true, "Resumed from panic snapshot: Radio.", [u]⟩
          else memory_fallback e now ca [u]
        else memory_fallback e now c []
      | _, _ => memory_fallback e now c []
    else memory_fallback e now c []

/-- _restore_radio_after_unlock. -/
def restore_radio_after_unlock (e : Env) (c : Config) : Config × Bool × String × List Act :=
  match c.last_station_name, c.last_station_stream_url with
  | some n, some u =>
    if ¬ n.isEmpty ∧ ¬ u.isEmpty then
      let c1 := clear_radio_state (clear_audio_intent c)
      let c2 := { c1 with stream_url := some u, station_name := some n }
      if e.play_ok u then
        (c2, true, "Unlocked + homed + switched to radio: " ++ n, [Act.stop, Act.play u])
      else
        (c2, false, "Audio play failed for radio restore.", [Act.stop, Act.play u])
    else (c, false, "No saved station to restore.", [])
  | _, _ => (c, false, "No saved station to restore.", [])

/-- The posture-flag writes at the top of rrunlock. -/
def unlockPostureClear (c : Config) : Config :=
  { c with panic_locked := false, autopanic_reason := none,
           suspended := false, suspend_reason := none }

/-- The mode-specific tail of rrunlock (radio / resume / default). -/
def rrunlock_tail (resumeFlag radioFlag : Bool) (e : Env) (now : Nat)
    (st : St) (acc : List Act) : St × List Act :=
  if radioFlag then
    let r := restore_radio_after_unlock e st.cfg
    let line := if r.2.1 then "✅ " ++ r.2.2.1
                else "⚠️ Unlock complete, but radio restore failed. (" ++ r.2.2.1 ++ ")"
    ({ st with cfg := clear_panic_snapshot r.1 },
     acc ++ r.2.2.2 ++ [Act.send line, Act.notifyCtl "✅ Panic Cleared"])
  else if resumeFlag then
    let r := attempt_resume true e now st.cfg
    let line := if r.ok then "✅ " ++ r.msg
                else "⚠️ Unlock complete, but nothing resumed. (" ++ r.msg ++ ")"
    ({ st with cfg := clear_panic_snapshot r.cfg },
     acc ++ r.plays.map Act.play ++ [Act.send line, Act.notifyCtl "✅ Panic Cleared"])
  else
    ({ st with cfg := clear_panic_snapshot st.cfg },
     acc ++ [Act.send "✅ Unlocked + homed. Playback is OFF by default. Use `rrunlock radio` or `rrunlock resume`.",
             Act.notifyCtl "✅ Panic Cleared"])

/-- rrunlock. -/
def rrunlock (mode : Option String) (e : Env) (now : Nat) (ctx : Ctx) (st : St) :
    St × List Act :=
  if ctx.guild = none then (st, [])
  else if ¬ st.cfg.bound then (st, [Act.send "Not bound yet. Use `rrbind` first."])
  else if ¬ require_owner_in_allowed_vc ctx.author_voice st.cfg then (st, [])
  else
    let m := String.mk ((trimL (mode.getD "").data).map Char.toLower)
    let homeFlag := (m == "") || (m == "home") || (m == "resume") || (m == "full") || (m == "radio")
    let resumeFlag := (m == "resume") || (m == "full")
    let radioFlag := m == "radio"
    let st1 := { st with cfg := unlockPostureClear st.cfg }
    if homeFlag then
      let st2 := { st1 with allow_summon_until := now + 10, home_grace_until := now + 15 }
      if ¬ e.summon_ok then
        (st2, [Act.summon, Act.send "Unlocked, but summon failed. Try `rrhome`."])
      else rrunlock_tail resumeFlag radioFlag e now st2 [Act.summon]
    else rrunlock_tail resumeFlag radioFlag e now st1 []

/-- rrhome. -/
def rrhome (e : Env) (now : Nat) (ctx : Ctx) (st : St) : St × List Act :=
  if st.cfg.panic_locked then (st, [Act.send "Panic lock is active."])
  else if ¬ require_owner_in_allowed_vc ctx.author_voice st.cfg then (st, [])
  else if ctx.guild.isSome && e.bot_home then (st, [Act.send "She’s already home."])
  else
    let st1 := { st with
      allow_summon_until := now + 10, home_grace_until := now + 15,
      cfg := unsuspendCfg st.cfg }
    if ¬ e.summon_ok then (st1, [Act.summon])
    else (st1, [Act.summon, Act.send "Home command executed."])

/-- searchstations, with the fetched radio-browser payload as an oracle. -/
def searchstations (query : String) (rb : Option (List Station)) (ctx : Ctx)
    (e : Env) (st : St) : St × List Act :=
  if ¬ require_owner_in_allowed_vc ctx.author_voice st.cfg then (st, [])
  else if ¬ e.bot_home then
    (st, [Act.send "Bot is not home. Use `rrhome` while you are in the locked VC."])
  else if st.cfg.suspended then (st, [Act.send "Suspended. Use `rrresume`."])
  else
    let q := String.mk (trimL query.data)
    if q.isEmpty then (st, [Act.send "Give me a query."])
    else
      match rb with
      | none => (st, [Act.send "No stations found."])
      | some data =>
        if data.isEmpty then (st, [Act.send "No stations found."])
        else
          let min_bitrate := st.cfg.min_bitrate_kbps
          let blocked := blocked_terms st.cfg
          let stations := (data.take 50).filter
            (fun s => !(s.bitrate != 0 && decide (s.bitrate < min_bitrate)) &&
                      ! blocked_by_tags s blocked)
          if stations.isEmpty then (st, [Act.send "No usable stations after filters."])
          else
            ({ st with
                stations_cache := stations,
                cfg := { st.cfg with last_search_query := some q } },
             [Act.send "🔎 Results"])

/-- playstation. -/
def playstation (index : Int) (ctx : Ctx) (e : Env) (st : St) : St × List Act :=
  if ¬ require_owner_in_allowed_vc ctx.author_voice st.cfg then (st, [])
  else if ¬ e.bot_home then
    (st, [Act.send "Bot is not home. Use `rrhome` while you are in the locked VC."])
  else if st.cfg.suspended then (st, [Act.send "Suspended. Use `rrresume`."])
  else
    let stations := st.stations_cache
    if stations.isEmpty then
      (st, [Act.send "No cached results. Run searchstations first."])
    else if index < 1 ∨ (stations.length : Int) < index then
      (st, [Act.send "Invalid station number."])
    else
      match stations.get? (index - 1).toNat with
      | none => (st, [])
      | some s =>
        let c1 := { st.cfg with
          last_station_name := some s.name,
          last_station_stream_url := some s.stream_url }
        let c2 := clear_audio_intent c1
        let c3 := { c2 with stream_url := some s.stream_url, station_name := some s.name }
        if ¬ e.play_ok s.stream_url then ({ st with cfg := c3 }, [Act.play s.stream_url])
        else ({ st with cfg := c3 }, [Act.play s.stream_url, Act.send "📻 Station Playing"])

/-- rrrestore: force-switch back to the last saved radio station. -/
def rrrestore (ctx : Ctx) (e : Env) (st : St) : St × List Act :=
  if ¬ require_owner_in_allowed_vc ctx.author_voice st.cfg then (st, [])
  else if ¬ e.bot_home then
    (st, [Act.send "Bot is not home. Use `rrhome` while you are in the locked VC."])
  else if st.cfg.suspended then (st, [Act.send "Suspended. Use `rrresume` first."])
  else if st.cfg.panic_locked then
    (st, [Act.send "Panic lock is active. Use `rrunlock` (home-only) first."])
  else
    match st.cfg.last_station_name, st.cfg.last_station_stream_url with
    | some n, some u =>
      if ¬ n.isEmpty ∧ ¬ u.isEmpty then
        let c1 := clear_radio_state (clear_audio_intent st.cfg)
        let c2 := { c1 with stream_url := some u, station_name := some n }
        if ¬ e.play_ok u then ({ st with cfg := c2 }, [Act.stop, Act.play u])
        else ({ st with cfg := c2 }, [Act.stop, Act.play u, Act.send "📻 Restored (Radio)"])
      else (st, [Act.send "No saved station to restore yet. Use `playstation` first."])
    | _, _ => (st, [Act.send "No saved station to restore yet. Use `playstation` first."])

/-- stopstation. -/
def stopstation (ctx : Ctx) (st : St) : St × List Act :=
  if ¬ require_owner_in_allowed_vc ctx.author_voice st.cfg then (st, [])
  else ({ st with cfg := clear_radio_state st.cfg }, [Act.stop, Act.send "⏹️ Stopped"])

/-- rrsuspend. -/
def rrsuspend (reason : String) (ctx : Ctx) (st : St) : St × List Act :=
  if ctx.guild = none then (st, [])
  else if ¬ st.cfg.bound then (st, [Act.send "Not bound yet. Use `rrbind` first."])
  else if ¬ require_owner_in_allowed_vc ctx.author_voice st.cfg then (st, [])
  else
    let c1 := suspendCfg reason st.cfg
    let c2 := clear_audio_intent (clear_radio_state c1)
    ({ st with cfg := c2 },
     [Act.disconnect, Act.notifyCtl "🟡 Suspended", Act.send "Suspended."])

/-- rrcontrol: re-key the control channel. -/
def rrcontrol (channelArg : Option Nat) (ctx : Ctx) (st : St) : St × List Act :=
  if ctx.guild = none then (st, [])
  else if ¬ st.cfg.bound then (st, [Act.send "Not bound yet. Use `rrbind` first."])
  else if (match st.cfg.allowed_guild_id, ctx.guild with
           | some ag, some g => !(g == ag)
           | _, _ => false) then (st, [Act.send "Wrong guild."])
  else if ¬ require_owner_in_allowed_vc ctx.author_voice st.cfg then (st, [])
  else
    let target := channelArg.getD ctx.channel
    let c1 := { st.cfg with control_text_channel_id := some target }
    let c2 := if c1.reassure_fallback_channel_id = none then
                { c1 with reassure_fallback_channel_id := some target }
              else c1
    ({ st with cfg := c2 }, [Act.send "🛡️ Control Channel Re-Keyed"])

/-- rrbind. -/
def rrbind (ctx : Ctx) (st : St) : St × List Act :=
  if ctx.guild = none then (st, [])
  else
    match ctx.author_voice with
    | none => (st, [Act.send "Join the voice channel you want locked first, then run rrbind again."])
    | some vch =>
      let c1 := { st.cfg with
        allowed_guild_id := ctx.guild,
        control_text_channel_id := some ctx.channel,
        allowed_voice_channel_id := some vch,
        bound_owner_user_id := some ctx.author,
        bound := true, panic_locked := false,
        autopanic_enabled := true, autopanic_reason := none,
        suspended := false, suspend_reason := none }
      let c2 := clear_audio_intent (clear_radio_state c1)
      ({ st with cfg := c2 },
       [Act.send "Bound. Use rrsetdj to set DJ Asuka. Use rrhome to bring her home."])

/-- The MediaState exclusivity invariant: never radio-active and
audio-intent-active at once. -/
def mediaInv (c : Config) : Bool :=
  !(radio_active c && c.audio_intent_active)

/-- A resume candidate: an external query or a radio station. -/
inductive Cand where
  | ytQ (q : String) : Cand
  | stationC (n u : String) : Cand
  deriving DecidableEq

/-- The query string a candidate feeds to the external player. -/
def candQuery : Cand → String
  | Cand.ytQ q => q
  | Cand.stationC _ u => u

/-- The candidate contributed by the panic snapshot (kinds are exclusive). -/
def snapCands (c : Config) : List Cand :=
  if c.panic_resume_kind.getD "" = "youtube" then
    match c.panic_resume_youtube_query with
    | some q => if ¬ q.isEmpty then [Cand.ytQ q] else []
    | none => []
  else if c.panic_resume_kind.getD "" = "radio" then
    match c.panic_resume_station_name, c.panic_resume_station_url with
    | some n, some u => if ¬ n.isEmpty ∧ ¬ u.isEmpty then [Cand.stationC n u] else []
    | _, _ => []
  else []

/-- The candidate contributed by RestoreMemory's last external query. -/
def queryCand (c : Config) : List Cand :=
  match c.last_youtube_query with
  | some q => if ¬ q.isEmpty then [Cand.ytQ q] else []
  | none => []

/-- The candidate contributed by RestoreMemory's last station. -/
def stationCand (c : Config) : List Cand :=
  match c.last_station_name, c.last_station_stream_url with
  | some n, some u => if ¬ n.isEmpty ∧ ¬ u.isEmpty then [Cand.stationC n u] else []
  | _, _ => []

/-- Modelled from the spec resume() chain: (1) snapshot external query,
(2) snapshot radio station, (3) RestoreMemory last external query,
(4) RestoreMemory last station, in that order. -/
def resume_chain (c : Config) : List Cand :=
  snapCands c ++ queryCand c ++ stationCand c

/-- The queries a first-success chain would feed to the player, in order. -/
def chainAttempts (e : Env) : List Cand → List String
  | [] => []
  | cd :: t => candQuery cd :: (if e.play_ok (candQuery cd) then [] else chainAttempts e t)

/-- The first candidate in the chain whose replay succeeds. -/
def firstOk (e : Env) (l : List Cand) : Option Cand :=
  l.find? (fun cd => e.play_ok (candQuery cd))

/-- Process-local timers of the reassurance / sleep loop. -/
structure LoopState where
  dj_in_vc_since : Nat
  last_sleep_reminder : Nat
  sleep_reminder_count : Nat
  sleep_final_sent : Bool
  last_reassure_in_vc : Nat
  last_reassure_out_vc : Nat
  deriving DecidableEq

/-- The all-zero loop state at process start. -/
def resetState0 : LoopState := ⟨0, 0, 0, false, 0, 0⟩

/-- Reset of the four sleep-session fields. -/
def resetSleep (s : LoopState) : LoopState :=
  { s with dj_in_vc_since := 0, last_sleep_reminder := 0,
           sleep_reminder_count := 0, sleep_final_sent := false }

/-- Per-tick environment of the reassurance loop. -/
structure TickEnv where
  now : Nat
  guild_found : Bool
  bot_home : Bool
  member_found : Bool
  dj_in_vc : Bool
  playing : Bool
  deriving DecidableEq

/-- The sleep-reminder section of one loop tick. -/
def sleep_block (c : Config) (e : TickEnv) (s : LoopState) : LoopState × List Act :=
  if e.dj_in_vc && c.dj_sleep_reminder_enabled then
    if 0 < s.dj_in_vc_since then
      let mins : Nat := (e.now - s.dj_in_vc_since) / 60
      let threshold : Int := c.dj_sleep_after_minutes.getD 0
      let rep : Int := max 10 (c.dj_sleep_repeat_minutes.getD 0)
      if 0 < threshold ∧ threshold ≤ (mins : Int) then
        if s.last_sleep_reminder = 0 ∨ rep * 60 ≤ ((e.now - s.last_sleep_reminder : Nat) : Int) then
          let s1 := { s with
            last_sleep_reminder := e.now,
            sleep_reminder_count := s.sleep_reminder_count + 1 }
          let level : Nat :=
            if s1.sleep_reminder_count ≤ 1 then 1
            else if s1.sleep_reminder_count = 2 then 2 else 3
          if 3 ≤ level ∧ s1.sleep_final_sent = false then
            ({ s1 with sleep_final_sent := true }, [Act.reminder level mins, Act.finalNote])
          else (s1, [Act.reminder level mins])
        else (s, [])
      else (s, [])
    else (s, [])
  else (s, [])

/-- The reassurance-message section of one loop tick. -/
def reassure_block (c : Config) (e : TickEnv) (s : LoopState) : LoopState × List Act :=
  if ¬ c.periodic_reassure_enabled then (s, [])
  else if ¬ any_active e.playing c then (s, [])
  else if ¬ e.bot_home then (s, [])
  else if e.dj_in_vc then
    let interval : Int := max (c.reassure_interval_in_vc_sec.getD 0) 30
    if ((e.now - s.last_reassure_in_vc : Nat) : Int) < interval then (s, [])
    else ({ s with last_reassure_in_vc := e.now }, [Act.reassureIn])
  else
    let interval : Int := max (c.reassure_interval_out_vc_sec.getD 0) 60
    if ((e.now - s.last_reassure_out_vc : Nat) : Int) < interval then (s, [])
    else ({ s with last_reassure_out_vc := e.now }, [Act.reassureOut])

/-- One tick of _periodic_reassurance_loop. -/
def reassure_tick (c : Config) (e : TickEnv) (s : LoopState) : LoopState × List Act :=
  if ¬ c.bound then (s, [])
  else if c.panic_locked then (s, [])
  else if c.suspended then (s, [])
  else if c.allowed_guild_id = none ∨ c.allowed_voice_channel_id = none ∨ c.dj_user_id = none then
    (s, [])
  else if ¬ e.guild_found then (s, [])
  else if ¬ e.bot_home then (resetSleep s, [])
  else if ¬ e.member_found then (s, [])
  else
    let s1 :=
      if e.dj_in_vc then
        if s.dj_in_vc_since = 0 then
          { s with dj_in_vc_since := e.now, last_sleep_reminder := 0,
                   sleep_reminder_count := 0, sleep_final_sent := false }
        else s
      else resetSleep s
    let p1 := sleep_block c e s1
    let p2 := reassure_block c e p1.1
    (p2.1, p1.2 ++ p2.2)

/-- A run of consecutive loop ticks, concatenating emitted acts. -/
def reassure_run (c : Config) (envs : List TickEnv) (s : LoopState) : LoopState × List Act :=
  envs.foldl (fun acc e =>
    let r := reassure_tick c e acc.1
    (r.1, acc.2 ++ r.2)) (s, [])

/-- The loop-head config gates all pass. -/
def gates_pass (c : Config) : Bool :=
  c.bound && !c.panic_locked && !c.suspended &&
  c.allowed_guild_id.isSome && c.allowed_voice_channel_id.isSome && c.dj_user_id.isSome

/-- Levels of the sleep reminders in a trace, in order. -/
def reminderLevels (acts : List Act) : List Nat :=
  acts.filterMap (fun a => match a with | Act.reminder lvl _ => some lvl | _ => none)

/-- Number of one-shot final messages in a trace. -/
def finalsCount (acts : List Act) : Nat :=
  (acts.filter (fun a => a == Act.finalNote)).length

/-- The escalation ladder: the expected level sequence of n consecutive
sleep reminders in one session (1, 2, 3, 3, ...). -/
def levelsSeq (n : Nat) : List Nat :=
  (List.range n).map (fun k => min (k + 1) 3)

/-- A tick during which the guild is resolved, the bot is home, and the
protected user is present in the registered voice channel. -/
def presentT (e : TickEnv) : Bool :=
  e.guild_found && e.bot_home && e.member_found && e.dj_in_vc

/-- The posture and perimeter fields the resume engine must not touch. -/
def postureFields (c : Config) :
    Bool × Option String × Bool × Option String × Bool × Option Nat :=
  (c.panic_locked, c.autopanic_reason, c.suspended, c.suspend_reason,
   c.bound, c.allowed_voice_channel_id)

/-- Whether an rrunlock mode argument selects the resume path. -/
def resumeFlagOf (mode : Option String) : Bool :=
  let m := String.mk ((trimL (mode.getD "").data).map Char.toLower)
  (m == "resume") || (m == "full")

/-- Concrete witness configuration: bound, autopanic enabled, not panicked,
a radio station active. -/
def cWitness : Config where
  bound := true
  allowed_guild_id := some 1
  control_text_channel_id := some 2
  allowed_voice_channel_id := some 3
  audit_channel_id := none
  bound_owner_user_id := some 7
  panic_locked := false
  autopanic_enabled := true
  autopanic_reason := none
  suspended := false
  suspend_reason := none
  hard_mode := true
  stream_url := some "http://s/x"
  station_name := some "Jazz FM"
  last_station_name := some "Jazz FM"
  last_station_stream_url := some "http://s/x"
  last_search_query := some "jazz"
  audio_intent_active := false
  audio_intent_started := 0
  last_youtube_query := none
  panic_resume_kind := none
  panic_resume_station_name := none
  panic_resume_station_url := none
  panic_resume_youtube_query := none
  min_bitrate_kbps := 64
  block_tags_csv := "phonk,earrape,nsfw"
  dj_user_id := some 9
  periodic_reassure_enabled := true
  reassure_interval_in_vc_sec := some 300
  reassure_interval_out_vc_sec := some 900
  reassure_fallback_channel_id := none
  dj_sleep_reminder_enabled := true
  dj_sleep_after_minutes := some 180
  dj_sleep_repeat_minutes := some 45

/-- A panicked configuration holding a radio snapshot and a remembered
external query (used by concrete counterexamples and witnesses). -/
def cSnap : Config :=
  { cWitness with
    panic_resume_kind := some "radio",
    panic_resume_station_name := some "S",
    panic_resume_station_url := some "u",
    last_youtube_query := some "q",
    stream_url := none, station_name := none,
    last_station_name := none, last_station_stream_url := none,
    panic_locked := true }

/-- A configuration with hard mode on, autopanic disabled, and an active
audio intent. -/
def cViol : Config :=
  { cWitness with autopanic_enabled := false, audio_intent_active := true }

/-- An operator context sitting inside the locked voice channel. -/
def ctxPres : Ctx := ⟨some 1, 2, 7, some 3, true, ""⟩

/-- A non-operator context outside any voice channel. -/
def ctxOutside : Ctx := ⟨some 1, 2, 7, none, false, "g!stop"⟩

/-- An idle environment: nothing playing, bot home, all calls succeed. -/
def envIdle : Env := ⟨false, true, true, fun _ => true⟩

/-- An environment where summon succeeds and every play attempt fails. -/
def envHomeOk : Env := ⟨false, true, true, fun _ => false⟩

/-- An environment where summon succeeds and only the query "q" plays. -/
def envPlayQ : Env := ⟨false, true, true, fun q => q == "q"⟩

/-- An environment whose summon call fails. -/
def envNoSummon : Env := ⟨false, false, false, fun _ => true⟩

/-- A reassurance-loop config with a one-minute sleep threshold. -/
def cSleep : Config :=
  { cWitness with dj_sleep_after_minutes := some 1, dj_sleep_repeat_minutes := some 0 }

/-- The cog state holding `cWitness` with zeroed process-local timers. -/
def stWitness : St := ⟨cWitness, 0, 0, []⟩

/-- The cog state holding `cSnap` with zeroed process-local timers. -/
def stSnap : St := ⟨cSnap, 0, 0, []⟩

/-- A fully-present loop tick at a given monotonic second. -/
def presentTick (t : Nat) : TickEnv := ⟨t, true, true, true, true, false⟩

/-- The session bookkeeping invariant tying the loop state to the trace of one
continuous presence session: the counter matches the reminders emitted, the
final-sent flag matches whether the third was reached, a zero session timer
means a zero counter, the levels follow the escalation ladder, and the final
message count matches. -/
def sessionInv (p : LoopState × List Act) : Prop :=
  p.1.sleep_reminder_count = (reminderLevels p.2).length ∧
  p.1.sleep_final_sent = decide (3 ≤ (reminderLevels p.2).length) ∧
  (p.1.dj_in_vc_since = 0 → p.1.sleep_reminder_count = 0) ∧
  reminderLevels p.2 = levelsSeq (reminderLevels p.2).length ∧
  finalsCount p.2 = (if 3 ≤ (reminderLevels p.2).length then 1 else 0)

-- Theorems ------------------------------------------------------------------

/-- Once panic is locked, a further automatic trigger changes nothing. -/
theorem autopanic_locked_noop (playing : Bool) (q : String) (s : Config)
    (h : s.panic_locked = true) : autopanic playing q s = s := by
  unfold autopanic
  by_cases he : s.autopanic_enabled = true
  · simp [he, h]
  · simp [he]

/-- The committed autopanic transition locks panic and is stable. -/
theorem autopanic_commits (playing : Bool) (r : String) (c : Config)
    (hen : c.autopanic_enabled = true) (hnp : c.panic_locked = false) :
    (autopanic playing r c).panic_locked = true ∧
    (autopanic playing r c).autopanic_reason = some r := by
  unfold autopanic
  simp [hen, hnp, clear_audio_intent, clear_radio_state]

/-- C1: for every batch of automatic-panic triggers serialised by the autopanic
mutex while the system is bound, autopanic is enabled, and panic is not yet
locked, the whole batch is equivalent to the first trigger alone: exactly one
Panicked transition is committed (panic locked, snapshot captured from the
pre-panic media state, radio state and audio intent cleared), the recorded
reason is the first trigger's reason, and every later trigger sees panic locked
and leaves the state unchanged. -/
theorem autopanic_single_commit (playing : Bool) (r : String) (rs : List String)
    (c : Config) (hbound : c.bound = true)
    (hen : c.autopanic_enabled = true) (hnp : c.panic_locked = false) :
    (r :: rs).foldl (fun s q => autopanic playing q s) c = autopanic playing r c ∧
    (autopanic playing r c).panic_locked = true ∧
    (autopanic playing r c).autopanic_reason = some r ∧
    (autopanic playing r c).stream_url = none ∧
    (autopanic playing r c).station_name = none ∧
    (autopanic playing r c).audio_intent_active = false ∧
    (autopanic playing r c).panic_resume_kind = (snapshot_for_panic playing c).panic_resume_kind ∧
    (autopanic playing r c).panic_resume_station_name = (snapshot_for_panic playing c).panic_resume_station_name ∧
    (autopanic playing r c).panic_resume_station_url = (snapshot_for_panic playing c).panic_resume_station_url ∧
    (autopanic playing r c).panic_resume_youtube_query = (snapshot_for_panic playing c).panic_resume_youtube_query ∧
    (∀ s q, s.panic_locked = true → autopanic playing q s = s) := by
  have hlock : (autopanic playing r c).panic_locked = true :=
    (autopanic_commits playing r c hen hnp).1
  refine ⟨?_, hlock, (autopanic_commits playing r c hen hnp).2, ?_, ?_, ?_, ?_, ?_, ?_, ?_, ?_⟩
  · show List.foldl _ _ _ = _
    simp only [List.foldl_cons]
    have : ∀ (l : List String) (s : Config), s.panic_locked = true →
        l.foldl (fun s q => autopanic playing q s) s = s := by
      intro l
      induction l with
      | nil => intro s _; rfl
      | cons x xs ih =>
        intro s hs
        simp only [List.foldl_cons]
        rw [autopanic_locked_noop playing x s hs]
        exact ih s hs
    exact this rs _ hlock
  all_goals
    first
    | (intro s q hs; exact autopanic_locked_noop playing q s hs)
    | (unfold autopanic
       simp [hen, hnp, clear_audio_intent, clear_radio_state])

theorem autopanic_single_commit_witness :
    ["watchdog: not home", "tripwire"].foldl
      (fun s q => autopanic false q s) cWitness = autopanic false "watchdog: not home" cWitness ∧
    (autopanic false "watchdog: not home" cWitness).panic_locked = true ∧
    (autopanic false "watchdog: not home" cWitness).autopanic_reason = some "watchdog: not home" := by
  have h := autopanic_single_commit false "watchdog: not home" ["tripwire"] cWitness
    (by decide) (by decide) (by decide)
  exact ⟨h.1, h.2.1, h.2.2.1⟩

/-- The effectful manual panic always returns normally and equals the pure
transition. -/
theorem rrpanicE_ok (f : Fails) (hasGuild playing : Bool) (r : String) (c : Config) :
    rrpanicE f hasGuild playing r c = Except.ok (rrpanicC hasGuild playing r c) := by
  have hsw : ∀ b : Bool, swallowIt (extCall b) = Except.ok () := by
    intro b; cases b <;> rfl
  unfold rrpanicE rrpanicC
  by_cases hg : hasGuild <;> by_cases hb : c.bound = true <;>
    simp [hg, hb, hsw, bind, Except.bind, pure, Except.pure]

/-- The effectful automatic panic always returns normally and equals the pure
transition. -/
theorem autopanicE_ok (f : Fails) (playing : Bool) (r : String) (c : Config) :
    autopanicE f playing r c = Except.ok (autopanic playing r c) := by
  have hsw : ∀ b : Bool, swallowIt (extCall b) = Except.ok () := by
    intro b; cases b <;> rfl
  unfold autopanicE autopanic
  by_cases he : c.autopanic_enabled = true <;> by_cases hp : c.panic_locked = true <;>
    simp [he, hp, hsw, bind, Except.bind, pure, Except.pure]

/-- C2: for every manual (rrpanic, with the system bound) or automatic
(_autopanic, enabled and not already panicked) panic transition and every
combination of side-effect failures — voice disconnect, presence update, audit
send, control-channel notification — the transition returns normally (no
exception escapes) and the state transition completes: panic is locked, the
reason recorded, and radio state and audio intent cleared. -/
theorem panic_transition_completes (f : Fails) (playing : Bool) (r : String)
    (c cA : Config) (hb : c.bound = true)
    (he : cA.autopanic_enabled = true) (hp : cA.panic_locked = false) :
    (∃ c', rrpanicE f true playing r c = Except.ok c' ∧
      c'.panic_locked = true ∧ c'.autopanic_reason = some r ∧
      c'.stream_url = none ∧ c'.station_name = none ∧
      c'.audio_intent_active = false) ∧
    (∃ c'', autopanicE f playing r cA = Except.ok c'' ∧
      c''.panic_locked = true ∧ c''.autopanic_reason = some r ∧
      c''.stream_url = none ∧ c''.station_name = none ∧
      c''.audio_intent_active = false) := by
  constructor
  · refine ⟨rrpanicC true playing r c, rrpanicE_ok f true playing r c, ?_⟩
    unfold rrpanicC
    simp [hb, clear_audio_intent, clear_radio_state]
  · refine ⟨autopanic playing r cA, autopanicE_ok f playing r cA, ?_⟩
    unfold autopanic
    simp [he, hp, clear_audio_intent, clear_radio_state]

theorem panic_transition_completes_witness :
    (∃ c', rrpanicE ⟨true, true, true, true⟩ true false "Manual panic engaged" cWitness = Except.ok c' ∧
      c'.panic_locked = true ∧ c'.autopanic_reason = some "Manual panic engaged" ∧
      c'.stream_url = none ∧ c'.station_name = none ∧
      c'.audio_intent_active = false) ∧
    (∃ c'', autopanicE ⟨true, true, true, true⟩ false "Manual panic engaged" cWitness = Except.ok c'' ∧
      c''.panic_locked = true ∧ c''.autopanic_reason = some "Manual panic engaged" ∧
      c''.stream_url = none ∧ c''.station_name = none ∧
      c''.audio_intent_active = false) :=
  panic_transition_completes ⟨true, true, true, true⟩ false "Manual panic engaged"
    cWitness cWitness (by decide) (by decide) (by decide)

/-- C3 counterexample: with the system bound and no operator connected to the
locked voice channel, the presence check fails, yet rrpanic still commits a
panic transition — a state mutation — so "panic" is not gated on operator
presence as the claim states. -/
theorem rrpanic_no_presence_cx :
    require_owner_in_allowed_vc none cWitness = false ∧
    cWitness.panic_locked = false ∧
    (rrpanicC true false "Manual panic engaged" cWitness).panic_locked = true := by
  decide

/-- C3 (amended): every listed control action except panic — home, search,
station play, stop, suspend, unlock, and rebind-control-channel — leaves the
cog state unchanged when the invoking operator is not connected to the
registered voice channel; the panic command commits its transition with no
presence requirement whenever the system is bound. -/
theorem presence_gate_amended (e : Env) (now : Nat) (ctx : Ctx) (st : St)
    (query : String) (rb : Option (List Station)) (index : Int)
    (reason : String) (mode : Option String) (channelArg : Option Nat)
    (playing : Bool) (c2 : Config)
    (hpres : require_owner_in_allowed_vc ctx.author_voice st.cfg = false)
    (hb : c2.bound = true) :
    (rrhome e now ctx st).1 = st ∧
    (searchstations query rb ctx e st).1 = st ∧
    (playstation index ctx e st).1 = st ∧
    (stopstation ctx st).1 = st ∧
    (rrsuspend reason ctx st).1 = st ∧
    (rrunlock mode e now ctx st).1 = st ∧
    (rrcontrol channelArg ctx st).1 = st ∧
    (rrpanicC true playing reason c2).panic_locked = true := by
  refine ⟨?_, ?_, ?_, ?_, ?_, ?_, ?_, ?_⟩
  · unfold rrhome; split_ifs <;> simp_all
  · unfold searchstations; split_ifs <;> simp_all
  · unfold playstation; split_ifs <;> simp_all
  · unfold stopstation; split_ifs <;> simp_all
  · unfold rrsuspend; split_ifs <;> simp_all
  · unfold rrunlock; split_ifs <;> simp_all
  · unfold rrcontrol; split_ifs <;> simp_all
  · unfold rrpanicC; simp [hb, clear_audio_intent, clear_radio_state]

theorem presence_gate_amended_witness :
    require_owner_in_allowed_vc ctxOutside.author_voice stWitness.cfg = false ∧
    cWitness.bound = true ∧
    (rrhome envIdle 5 ctxOutside stWitness).1 = stWitness ∧
    (rrunlock none envIdle 5 ctxOutside stWitness).1 = stWitness ∧
    (rrpanicC true false "x" cWitness).panic_locked = true := by
  have h := presence_gate_amended envIdle 5 ctxOutside stWitness
    "jazz" none 1 "x" none none false cWitness (by decide) (by decide)
  exact ⟨by decide, by decide, h.1, h.2.2.2.2.2.1, h.2.2.2.2.2.2.2⟩

/-- C4 counterexample: a bound operator inside the locked voice channel runs
rrunlock (default mode) while the summon call fails; the invocation returns
early and the PanicSnapshot survives, contradicting "cleared by the end of the
invocation ... whether the summon/resume/restore side effects succeed or
fail". -/
theorem unlock_snapshot_retained_cx :
    require_owner_in_allowed_vc ctxPres.author_voice cSnap = true ∧
    cSnap.bound = true ∧
    cSnap.panic_resume_kind = some "radio" ∧
    (rrunlock none envNoSummon 5 ctxPres stSnap).1.cfg.panic_resume_kind = some "radio" := by
  decide

/-- C4 (amended): for every rrunlock invocation by a bound operator in the
locked voice channel, if the summon step succeeds then, in every mode and
whatever the resume/restore play outcomes, all four PanicSnapshot fields are
cleared by the end of the invocation; when the summon call fails the
invocation returns early and the snapshot is retained. -/
theorem unlock_snapshot_cleared_amended (mode : Option String) (e : Env)
    (now : Nat) (ctx : Ctx) (st : St) (g : Nat)
    (hg : ctx.guild = some g) (hb : st.cfg.bound = true)
    (hpres : require_owner_in_allowed_vc ctx.author_voice st.cfg = true)
    (hsum : e.summon_ok = true) :
    (rrunlock mode e now ctx st).1.cfg.panic_resume_kind = none ∧
    (rrunlock mode e now ctx st).1.cfg.panic_resume_station_name = none ∧
    (rrunlock mode e now ctx st).1.cfg.panic_resume_station_url = none ∧
    (rrunlock mode e now ctx st).1.cfg.panic_resume_youtube_query = none := by
  unfold rrunlock rrunlock_tail
  simp only [hg, hb, hpres, hsum]
  split_ifs <;> simp_all [clear_panic_snapshot]

theorem unlock_snapshot_cleared_amended_witness :
    (rrunlock (some "resume") envPlayQ 5 ctxPres stSnap).1.cfg.panic_resume_kind = none := by
  have h := unlock_snapshot_cleared_amended (some "resume") envPlayQ 5 ctxPres stSnap 1
    (by decide) (by decide) (by decide) (by decide)
  exact h.1

/-- The RestoreMemory station fallback only touches media fields. -/
theorem memory_station_posture (e : Env) (c : Config) (acc : List String) :
    postureFields (memory_station e c acc).cfg = postureFields c := by
  unfold memory_station
  cases c.last_station_name <;> cases c.last_station_stream_url <;>
    dsimp only <;> (try split_ifs) <;> simp [postureFields]

/-- The RestoreMemory fallbacks only touch media fields. -/
theorem memory_fallback_posture (e : Env) (now : Nat) (c : Config) (acc : List String) :
    postureFields (memory_fallback e now c acc).cfg = postureFields c := by
  unfold memory_fallback
  cases c.last_youtube_query with
  | none => exact memory_station_posture e c acc
  | some q =>
    dsimp only
    split_ifs
    all_goals
      first
        | exact memory_station_posture e c acc
        | (rw [memory_station_posture]; simp [postureFields])
        | simp [postureFields]

/-- The whole resume engine only touches media fields. -/
theorem attempt_resume_posture (hasGuild : Bool) (e : Env) (now : Nat) (c0 : Config) :
    postureFields (attempt_resume hasGuild e now c0).cfg = postureFields c0 := by
  have hmf : ∀ (cc : Config) (acc : List String),
      postureFields (memory_fallback e now cc acc).cfg = postureFields cc :=
    fun cc acc => memory_fallback_posture e now cc acc
  have hcl : postureFields (clear_audio_intent (clear_radio_state c0)) = postureFields c0 := by
    simp [postureFields, clear_audio_intent, clear_radio_state]
  unfold attempt_resume
  dsimp only
  split_ifs
  all_goals try split
  all_goals try split_ifs
  all_goals
    solve
      | simp [postureFields, clear_audio_intent, clear_radio_state]
      | (rw [hmf]; simp [postureFields, clear_audio_intent, clear_radio_state])

/-- The radio-restore engine only touches media fields. -/
theorem restore_radio_posture (e : Env) (c : Config) :
    postureFields (restore_radio_after_unlock e c).1 = postureFields c := by
  unfold restore_radio_after_unlock
  split
  all_goals try split_ifs
  all_goals simp [postureFields, clear_audio_intent, clear_radio_state]

/-- rrunlock, once past its gates, ends with panic and suspend cleared and
never touches the perimeter binding. -/
theorem rrunlock_unlocks (mode : Option String) (e : Env) (now : Nat)
    (ctx : Ctx) (st : St) (g : Nat)
    (hg : ctx.guild = some g) (hb : st.cfg.bound = true)
    (hpres : require_owner_in_allowed_vc ctx.author_voice st.cfg = true) :
    (rrunlock mode e now ctx st).1.cfg.panic_locked = false ∧
    (rrunlock mode e now ctx st).1.cfg.autopanic_reason = none ∧
    (rrunlock mode e now ctx st).1.cfg.suspended = false ∧
    (rrunlock mode e now ctx st).1.cfg.suspend_reason = none ∧
    (rrunlock mode e now ctx st).1.cfg.bound = true ∧
    (rrunlock mode e now ctx st).1.cfg.allowed_voice_channel_id =
      st.cfg.allowed_voice_channel_id := by
  have har := attempt_resume_posture true e now (unlockPostureClear st.cfg)
  have hrr := restore_radio_posture e (unlockPostureClear st.cfg)
  simp only [postureFields, Prod.mk.injEq, unlockPostureClear] at har hrr
  unfold rrunlock rrunlock_tail
  simp only [hg, hb, hpres]
  split_ifs <;>
    simp_all [clear_panic_snapshot, unlockPostureClear]

/-- C5 counterexample: a second rrunlock call right after a first one does not
report "already normal" and is not a no-op beyond re-confirming state — it
re-runs the whole unlock sequence, including the summon side effect, and
reports the standard unlock-complete message. -/
theorem unlock_second_call_cx :
    (rrunlock none envHomeOk 5 ctxPres
        ((rrunlock none envHomeOk 5 ctxPres stSnap).1)).2 =
      [Act.summon,
       Act.send "✅ Unlocked + homed. Playback is OFF by default. Use `rrunlock radio` or `rrunlock resume`.",
       Act.notifyCtl "✅ Panic Cleared"] ∧
    ((rrunlock none envHomeOk 5 ctxPres
        ((rrunlock none envHomeOk 5 ctxPres stSnap).1)).2.all (fun a =>
          match a with
          | Act.send m => !(infixIn "already normal".data m.data)
          | _ => true)) = true := by
  decide

/-- C5 (amended): for a bound operator in the locked voice channel, invoking
rrunlock twice in a row never fails and is idempotent at the posture-flag
layer — after the second call panic and suspend are cleared exactly as after
the first — but the second call is not a no-op: in the default mode with a
successful summon it repeats the identical action sequence, summon included,
and emits the standard unlock message rather than an "already normal"
report. -/
theorem unlock_idempotent_amended (mode : Option String) (e : Env)
    (now now2 : Nat) (ctx : Ctx) (st : St) (g : Nat)
    (hg : ctx.guild = some g) (hb : st.cfg.bound = true)
    (hpres : require_owner_in_allowed_vc ctx.author_voice st.cfg = true) :
    (rrunlock mode e now2 ctx (rrunlock mode e now ctx st).1).1.cfg.panic_locked = false ∧
    (rrunlock mode e now2 ctx (rrunlock mode e now ctx st).1).1.cfg.autopanic_reason = none ∧
    (rrunlock mode e now2 ctx (rrunlock mode e now ctx st).1).1.cfg.suspended = false ∧
    (rrunlock mode e now2 ctx (rrunlock mode e now ctx st).1).1.cfg.suspend_reason = none ∧
    (rrunlock mode e now ctx st).1.cfg.panic_locked = false ∧
    (rrunlock mode e now ctx st).1.cfg.suspended = false ∧
    ((mode = none ∧ e.summon_ok = true) →
      (rrunlock mode e now2 ctx (rrunlock mode e now ctx st).1).2 =
        (rrunlock mode e now ctx st).2) := by
  have h1 := rrunlock_unlocks mode e now ctx st g hg hb hpres
  have hpres2 : require_owner_in_allowed_vc ctx.author_voice
      (rrunlock mode e now ctx st).1.cfg = true := by
    unfold require_owner_in_allowed_vc at hpres ⊢
    rw [h1.2.2.2.2.2]
    exact hpres
  have hb2 : (rrunlock mode e now ctx st).1.cfg.bound = true := h1.2.2.2.2.1
  have h2 := rrunlock_unlocks mode e now2 ctx (rrunlock mode e now ctx st).1 g hg hb2 hpres2
  refine ⟨h2.1, h2.2.1, h2.2.2.1, h2.2.2.2.1, h1.1, h1.2.2.1, ?_⟩
  rintro ⟨hm, hs⟩
  subst hm
  have htr : ∀ (stx : St) (nowx : Nat), stx.cfg.bound = true →
      require_owner_in_allowed_vc ctx.author_voice stx.cfg = true →
      (rrunlock none e nowx ctx stx).2 = [Act.summon,
        Act.send "✅ Unlocked + homed. Playback is OFF by default. Use `rrunlock radio` or `rrunlock resume`.",
        Act.notifyCtl "✅ Panic Cleared"] := by
    intro stx nowx hbx hpx
    have dm : String.mk (List.map Char.toLower (trimL ([] : List Char))) = "" := rfl
    unfold rrunlock rrunlock_tail
    simp [hg, hbx, hpx, hs, dm]
  rw [htr _ now2 hb2 hpres2, htr st now hb hpres]

theorem unlock_idempotent_amended_witness :
    (rrunlock none envHomeOk 7 ctxPres (rrunlock none envHomeOk 5 ctxPres stSnap).1).1.cfg.panic_locked = false ∧
    (rrunlock none envHomeOk 7 ctxPres (rrunlock none envHomeOk 5 ctxPres stSnap).1).2 =
      (rrunlock none envHomeOk 5 ctxPres stSnap).2 := by
  have h := unlock_idempotent_amended none envHomeOk 5 7 ctxPres stSnap 1
    (by decide) (by decide) (by decide)
  exact ⟨h.1, h.2.2.2.2.2.2 ⟨rfl, by decide⟩⟩

/-- C6 counterexample: an out-of-perimeter stop command while audio intent is
active and hard mode is on does not panic when autopanic is disabled — the
hard edge routes through _autopanic, whose enable/already-locked guards can
refuse the transition, so "automatic panic when hard_mode is true" fails as
stated. -/
theorem tripwire_hard_edge_cx :
    audio_cmd_is_allowed ctxOutside cViol = false ∧
    any_active false cViol = true ∧
    cViol.hard_mode = true ∧
    (on_command true "stop" envIdle 100 ctxOutside ⟨cViol, 0, 0, []⟩).1 = ⟨cViol, 0, 0, []⟩ ∧
    (on_command true "stop" envIdle 100 ctxOutside ⟨cViol, 0, 0, []⟩).1.cfg.panic_locked = false := by
  decide

/-- C6 (amended): for every external-player command that fails the tripwire
perimeter check: a summon-alias inside the grace window is ignored regardless
of activity; otherwise, if nothing is active the command is ignored with no
state change; if something is active, hard mode routes the violation to
_autopanic (which commits a panic only when autopanic is enabled and not
already locked) and soft mode suspends with the recorded perimeter reason,
leaving media state untouched. -/
theorem tripwire_violation_amended (cmdName : String) (e : Env) (now : Nat)
    (ctx : Ctx) (st : St) (g : Nat)
    (hg : ctx.guild = some g)
    (hallow : audio_cmd_is_allowed ctx st.cfg = false) :
    ((String.mk (lowerL cmdName) ∈ summonAliases ∧ now ≤ st.allow_summon_until) →
      on_command true cmdName e now ctx st = (st, [])) ∧
    (¬ (String.mk (lowerL cmdName) ∈ summonAliases ∧ now ≤ st.allow_summon_until) →
      (any_active e.playing st.cfg = false →
        on_command true cmdName e now ctx st = (st, [])) ∧
      (any_active e.playing st.cfg = true → st.cfg.hard_mode = true →
        (on_command true cmdName e now ctx st).1.cfg =
          autopanic e.playing (violationReason (String.mk (lowerL cmdName))) st.cfg) ∧
      (any_active e.playing st.cfg = true → st.cfg.hard_mode = false →
        (on_command true cmdName e now ctx st).1.cfg =
          suspendCfg (violationReason (String.mk (lowerL cmdName))) st.cfg ∧
        (on_command true cmdName e now ctx st).1.cfg.suspended = true ∧
        (on_command true cmdName e now ctx st).1.cfg.suspend_reason =
          some (violationReason (String.mk (lowerL cmdName))) ∧
        (on_command true cmdName e now ctx st).1.cfg.stream_url = st.cfg.stream_url ∧
        (on_command true cmdName e now ctx st).1.cfg.station_name = st.cfg.station_name ∧
        (on_command true cmdName e now ctx st).1.cfg.audio_intent_active =
          st.cfg.audio_intent_active)) := by
  constructor
  · intro hgr
    unfold on_command
    simp only [hg, hallow]
    rw [if_neg (by simp), if_neg (by simp)]
    rw [if_pos hgr]
  · intro hngr
    refine ⟨?_, ?_, ?_⟩
    · intro hna
      unfold on_command
      simp only [hg, hallow]
      rw [if_neg (by simp), if_neg (by simp)]
      rw [if_neg hngr]
      simp [hallow, hna]
    · intro ha hh
      unfold on_command
      simp only [hg, hallow]
      rw [if_neg (by simp), if_neg (by simp)]
      rw [if_neg hngr]
      simp [hallow, ha, hh]
    · intro ha hh
      unfold on_command
      simp only [hg, hallow]
      rw [if_neg (by simp), if_neg (by simp)]
      rw [if_neg hngr]
      simp [hallow, ha, hh, suspendCfg]

theorem tripwire_violation_amended_witness :
    (on_command true "stop" envIdle 100 ctxOutside
        ⟨{ cViol with hard_mode := false }, 0, 0, []⟩).1.cfg.suspended = true := by
  have h := tripwire_violation_amended "stop" envIdle 100 ctxOutside
    ⟨{ cViol with hard_mode := false }, 0, 0, []⟩ 1 (by decide) (by decide)
  exact (((h.2 (by decide)).2.2 (by decide) (by decide)).2.1)

/-- The RestoreMemory tail of the resume engine is the first-success chain over
the memory candidates. -/
theorem memory_fallback_chain (e : Env) (now : Nat) (c : Config) (acc : List String) :
    (memory_fallback e now c acc).ok
      = (queryCand c ++ stationCand c).any (fun cd => e.play_ok (candQuery cd)) ∧
    (memory_fallback e now c acc).plays
      = acc ++ chainAttempts e (queryCand c ++ stationCand c) ∧
    (match firstOk e (queryCand c ++ stationCand c) with
     | some (Cand.ytQ _) => (memory_fallback e now c acc).cfg.audio_intent_active = true
     | some (Cand.stationC n u) =>
         (memory_fallback e now c acc).cfg.station_name = some n ∧
         (memory_fallback e now c acc).cfg.stream_url = some u
     | none => (memory_fallback e now c acc).ok = false ∧
         (memory_fallback e now c acc).msg = "No resume targets found.") := by
  unfold memory_fallback memory_station queryCand stationCand firstOk
  cases c.last_youtube_query <;> cases c.last_station_name <;> cases c.last_station_stream_url <;>
    dsimp only <;> (try split_ifs) <;>
    simp_all [chainAttempts, candQuery]

/-- C7: the resume engine after unlock is exactly the first-success chain over
(1) snapshot external query, (2) snapshot radio station, (3) RestoreMemory
last external query, (4) RestoreMemory last station: it reports success iff
some candidate replays, feeds the player the chain prefix up to and including
the first success (each candidate at most once, so nothing is retried), sets
MediaState according to the first successful candidate (audio intent for a
query, station name/url for a station), and when the chain is exhausted
reports "No resume targets found." without retrying. -/
theorem resume_chain_order (e : Env) (now : Nat) (c0 : Config) :
    (attempt_resume true e now c0).ok
      = (resume_chain c0).any (fun cd => e.play_ok (candQuery cd)) ∧
    (attempt_resume true e now c0).plays = chainAttempts e (resume_chain c0) ∧
    (match firstOk e (resume_chain c0) with
     | some (Cand.ytQ _) => (attempt_resume true e now c0).cfg.audio_intent_active = true
     | some (Cand.stationC n u) =>
         (attempt_resume true e now c0).cfg.station_name = some n ∧
         (attempt_resume true e now c0).cfg.stream_url = some u
     | none => (attempt_resume true e now c0).ok = false ∧
         (attempt_resume true e now c0).msg = "No resume targets found.") := by
  have hmb := fun (cc : Config) (acc : List String) => memory_fallback_chain e now cc acc
  unfold attempt_resume resume_chain snapCands
  dsimp only [clear_audio_intent, clear_radio_state]
  by_cases hk1 : c0.panic_resume_kind.getD "" = "youtube"
  · rw [if_pos hk1, if_pos hk1]
    cases hq : c0.panic_resume_youtube_query with
    | none =>
      simpa [queryCand, stationCand, clear_audio_intent, clear_radio_state]
        using hmb _ []
    | some q =>
      by_cases hqe : q.isEmpty
      · simp only [hqe]
        simpa [queryCand, stationCand, hqe, clear_audio_intent, clear_radio_state]
          using hmb _ []
      · by_cases hp : e.play_ok q
        · simp [hqe, hp, chainAttempts, candQuery, firstOk, List.find?]
        · simp only [hqe, hp]
          simpa [queryCand, stationCand, hqe, hp, chainAttempts, candQuery, firstOk,
            List.find?, clear_audio_intent, clear_radio_state] using hmb _ [q]
  · rw [if_neg hk1, if_neg hk1]
    by_cases hk2 : c0.panic_resume_kind.getD "" = "radio"
    · rw [if_pos hk2, if_pos hk2]
      cases hn : c0.panic_resume_station_name with
      | none =>
        simpa [queryCand, stationCand, clear_audio_intent, clear_radio_state]
          using hmb _ []
      | some n =>
        cases hu : c0.panic_resume_station_url with
        | none =>
          simpa [queryCand, stationCand, clear_audio_intent, clear_radio_state]
            using hmb _ []
        | some u =>
          by_cases hne : ¬ n.isEmpty ∧ ¬ u.isEmpty
          · by_cases hp : e.play_ok u
            · simp [hne, hp, chainAttempts, candQuery, firstOk, List.find?]
            · simp only [hne, hp]
              simpa [queryCand, stationCand, hne, hp, chainAttempts, candQuery, firstOk,
                List.find?, clear_audio_intent, clear_radio_state] using hmb _ [u]
          · simp only [hne]
            simpa [queryCand, stationCand, hne, clear_audio_intent, clear_radio_state]
              using hmb _ []
    · rw [if_neg hk2, if_neg hk2]
      simpa [queryCand, stationCand, clear_audio_intent, clear_radio_state]
        using hmb _ []

/-- C8 counterexample: starting from a state satisfying the exclusivity
invariant, unlock-with-resume replays the radio snapshot, the play fails (its
station fields stay written), and the memory query then succeeds — leaving
radio state and audio intent active at once. -/
theorem media_exclusive_cx :
    mediaInv stSnap.cfg = true ∧
    mediaInv ((rrunlock (some "resume") envPlayQ 5 ctxPres stSnap).1.cfg) = false ∧
    radio_active ((rrunlock (some "resume") envPlayQ 5 ctxPres stSnap).1.cfg) = true ∧
    ((rrunlock (some "resume") envPlayQ 5 ctxPres stSnap).1.cfg).audio_intent_active = true := by
  decide

/-- truthy of a missing value is false. -/
@[simp] theorem truthy_none : truthy none = false := rfl

/-- truthy of a present string tests its nonemptiness. -/
@[simp] theorem truthy_some (s : String) : truthy (some s) = !s.isEmpty := by
  cases h : s.isEmpty <;> simp [truthy, h]

/-- An automatic panic keeps the media-exclusivity invariant. -/
theorem autopanic_media (p : Bool) (r : String) (c : Config)
    (h : mediaInv c = true) : mediaInv (autopanic p r c) = true := by
  unfold autopanic
  split_ifs <;>
    simp_all [mediaInv, radio_active, truthy, clear_audio_intent, clear_radio_state]

/-- A manual panic keeps the media-exclusivity invariant. -/
theorem rrpanicC_media (hg p : Bool) (r : String) (c : Config)
    (h : mediaInv c = true) : mediaInv (rrpanicC hg p r c) = true := by
  unfold rrpanicC
  split_ifs <;>
    simp_all [mediaInv, radio_active, truthy, clear_audio_intent, clear_radio_state]

/-- The radio-restore engine keeps the media-exclusivity invariant. -/
theorem restore_radio_media (e : Env) (c : Config)
    (h : mediaInv c = true) : mediaInv (restore_radio_after_unlock e c).1 = true := by
  unfold restore_radio_after_unlock
  split
  all_goals try split_ifs
  all_goals
    simp_all [mediaInv, radio_active, truthy, clear_audio_intent, clear_radio_state]

/-- Clearing the panic snapshot leaves the media fields untouched. -/
theorem clear_panic_snapshot_media (c : Config) :
    mediaInv (clear_panic_snapshot c) = mediaInv c := rfl

/-- Clearing the posture flags leaves the media fields untouched. -/
theorem unlockPostureClear_media (c : Config) :
    mediaInv (unlockPostureClear c) = mediaInv c := rfl

/-- The rrunlock tail keeps the media-exclusivity invariant when the resume
flag is off. -/
theorem rrunlock_tail_media (radioFlag : Bool) (e : Env) (now : Nat)
    (st : St) (acc : List Act) (h : mediaInv st.cfg = true) :
    mediaInv (rrunlock_tail false radioFlag e now st acc).1.cfg = true := by
  have hrr := restore_radio_media e st.cfg h
  unfold rrunlock_tail
  split_ifs <;>
    simp_all [clear_panic_snapshot_media]

/-- The tripwire play block keeps the media-exclusivity invariant. -/
theorem tripwire_play_media (nm content : String) (now : Nat) (st : St)
    (h : mediaInv st.cfg = true) :
    mediaInv (tripwire_play nm content now st).1.cfg = true := by
  obtain ⟨st2, acts, hps⟩ : ∃ st2 acts, tripwire_play nm content now st = (st2, acts) :=
    ⟨_, _, rfl⟩
  rw [hps]
  unfold tripwire_play at hps
  iterate 8 (all_goals (try (split at hps)); all_goals (try (dsimp only at hps)))
  all_goals injection hps with h1 h2
  all_goals subst h1
  all_goals
    (try simp_all [mediaInv, radio_active, clear_audio_intent, clear_radio_state,
      Bool.not_eq_true, Bool.not_eq_false])
  all_goals (cases hsu : truthy st.cfg.stream_url <;> simp_all)

/-- The tripwire stop block keeps the media-exclusivity invariant. -/
theorem tripwire_stop_media (nm : String) (st : St)
    (h : mediaInv st.cfg = true) :
    mediaInv (tripwire_stop nm st).1.cfg = true := by
  obtain ⟨st2, acts, hps⟩ : ∃ st2 acts, tripwire_stop nm st = (st2, acts) :=
    ⟨_, _, rfl⟩
  rw [hps]
  unfold tripwire_stop at hps
  iterate 3 (all_goals (try (split at hps)); all_goals (try (dsimp only at hps)))
  all_goals injection hps with h1 h2
  all_goals subst h1
  all_goals
    simp_all [mediaInv, radio_active, truthy, clear_audio_intent, clear_radio_state]

/-- The tripwire disconnect block keeps the media-exclusivity invariant. -/
theorem tripwire_disc_media (nm : String) (now : Nat) (st : St)
    (h : mediaInv st.cfg = true) :
    mediaInv (tripwire_disc nm now st).1.cfg = true := by
  obtain ⟨st2, acts, hps⟩ : ∃ st2 acts, tripwire_disc nm now st = (st2, acts) :=
    ⟨_, _, rfl⟩
  rw [hps]
  unfold tripwire_disc at hps
  iterate 3 (all_goals (try (split at hps)); all_goals (try (dsimp only at hps)))
  all_goals injection hps with h1 h2
  all_goals subst h1
  all_goals
    simp_all [mediaInv, radio_active, truthy, clear_audio_intent, clear_radio_state]

/-- The tripwire listener keeps the media-exclusivity invariant. -/
theorem on_command_media (cmdName : String) (e : Env) (now : Nat)
    (ctx : Ctx) (st : St) (hinv : mediaInv st.cfg = true) :
    mediaInv (on_command true cmdName e now ctx st).1.cfg = true := by
  obtain ⟨st2, acts, hps⟩ : ∃ st2 acts, on_command true cmdName e now ctx st = (st2, acts) :=
    ⟨_, _, rfl⟩
  rw [hps]
  unfold on_command at hps
  iterate 8 (all_goals (try (split at hps)); all_goals (try (dsimp only at hps)))
  all_goals injection hps with h1 h2
  all_goals subst h1
  all_goals
    first
      | exact tripwire_disc_media _ now _
          (tripwire_stop_media _ _ (tripwire_play_media _ _ now _ hinv))
      | exact autopanic_media _ _ _ hinv
      | simp_all [mediaInv, radio_active, clear_audio_intent, clear_radio_state,
          suspendCfg]

/-- playstation keeps the media-exclusivity invariant. -/
theorem playstation_media (index : Int) (ctx : Ctx) (e : Env) (st : St)
    (hinv : mediaInv st.cfg = true) :
    mediaInv (playstation index ctx e st).1.cfg = true := by
  obtain ⟨st2, acts, hps⟩ : ∃ st2 acts, playstation index ctx e st = (st2, acts) :=
    ⟨_, _, rfl⟩
  rw [hps]
  unfold playstation at hps
  iterate 8 (all_goals (try (split at hps)); all_goals (try (dsimp only at hps)))
  all_goals injection hps with h1 h2
  all_goals subst h1
  all_goals simp_all [mediaInv, radio_active, clear_audio_intent]

/-- rrrestore keeps the media-exclusivity invariant. -/
theorem rrrestore_media (ctx : Ctx) (e : Env) (st : St)
    (hinv : mediaInv st.cfg = true) :
    mediaInv (rrrestore ctx e st).1.cfg = true := by
  obtain ⟨st2, acts, hps⟩ : ∃ st2 acts, rrrestore ctx e st = (st2, acts) :=
    ⟨_, _, rfl⟩
  rw [hps]
  unfold rrrestore at hps
  iterate 8 (all_goals (try (split at hps)); all_goals (try (dsimp only at hps)))
  all_goals injection hps with h1 h2
  all_goals subst h1
  all_goals
    simp_all [mediaInv, radio_active, clear_audio_intent, clear_radio_state]

/-- stopstation keeps the media-exclusivity invariant. -/
theorem stopstation_media (ctx : Ctx) (st : St)
    (hinv : mediaInv st.cfg = true) :
    mediaInv (stopstation ctx st).1.cfg = true := by
  obtain ⟨st2, acts, hps⟩ : ∃ st2 acts, stopstation ctx st = (st2, acts) :=
    ⟨_, _, rfl⟩
  rw [hps]
  unfold stopstation at hps
  iterate 4 (all_goals (try (split at hps)); all_goals (try (dsimp only at hps)))
  all_goals injection hps with h1 h2
  all_goals subst h1
  all_goals simp_all [mediaInv, radio_active, clear_radio_state]

/-- rrsuspend keeps the media-exclusivity invariant. -/
theorem rrsuspend_media (reason : String) (ctx : Ctx) (st : St)
    (hinv : mediaInv st.cfg = true) :
    mediaInv (rrsuspend reason ctx st).1.cfg = true := by
  obtain ⟨st2, acts, hps⟩ : ∃ st2 acts, rrsuspend reason ctx st = (st2, acts) :=
    ⟨_, _, rfl⟩
  rw [hps]
  unfold rrsuspend at hps
  iterate 6 (all_goals (try (split at hps)); all_goals (try (dsimp only at hps)))
  all_goals injection hps with h1 h2
  all_goals subst h1
  all_goals
    simp_all [mediaInv, radio_active, clear_audio_intent, clear_radio_state, suspendCfg]

/-- rrbind keeps the media-exclusivity invariant. -/
theorem rrbind_media (ctx : Ctx) (st : St)
    (hinv : mediaInv st.cfg = true) :
    mediaInv (rrbind ctx st).1.cfg = true := by
  obtain ⟨st2, acts, hps⟩ : ∃ st2 acts, rrbind ctx st = (st2, acts) :=
    ⟨_, _, rfl⟩
  rw [hps]
  unfold rrbind at hps
  iterate 6 (all_goals (try (split at hps)); all_goals (try (dsimp only at hps)))
  all_goals injection hps with h1 h2
  all_goals subst h1
  all_goals
    simp_all [mediaInv, radio_active, clear_audio_intent, clear_radio_state]

/-- rrhome keeps the media-exclusivity invariant. -/
theorem rrhome_media (e : Env) (now : Nat) (ctx : Ctx) (st : St)
    (hinv : mediaInv st.cfg = true) :
    mediaInv (rrhome e now ctx st).1.cfg = true := by
  obtain ⟨st2, acts, hps⟩ : ∃ st2 acts, rrhome e now ctx st = (st2, acts) :=
    ⟨_, _, rfl⟩
  rw [hps]
  unfold rrhome at hps
  iterate 6 (all_goals (try (split at hps)); all_goals (try (dsimp only at hps)))
  all_goals injection hps with h1 h2
  all_goals subst h1
  all_goals simp_all [mediaInv, radio_active, unsuspendCfg]

/-- searchstations keeps the media-exclusivity invariant. -/
theorem searchstations_media (query : String) (rb : Option (List Station))
    (ctx : Ctx) (e : Env) (st : St)
    (hinv : mediaInv st.cfg = true) :
    mediaInv (searchstations query rb ctx e st).1.cfg = true := by
  obtain ⟨st2, acts, hps⟩ : ∃ st2 acts, searchstations query rb ctx e st = (st2, acts) :=
    ⟨_, _, rfl⟩
  rw [hps]
  unfold searchstations at hps
  iterate 7 (all_goals (try (split at hps)); all_goals (try (dsimp only at hps)))
  all_goals injection hps with h1 h2
  all_goals subst h1
  all_goals simp_all [mediaInv, radio_active]

/-- rrunlock keeps the media-exclusivity invariant when the requested mode is
not resume/full. -/
theorem rrunlock_media (mode : Option String) (e : Env) (now : Nat)
    (ctx : Ctx) (st : St)
    (hinv : mediaInv st.cfg = true)
    (hmode : resumeFlagOf mode = false) :
    mediaInv (rrunlock mode e now ctx st).1.cfg = true := by
  have hm2 := hmode
  unfold resumeFlagOf at hm2
  dsimp only at hm2
  obtain ⟨st2, acts, hps⟩ : ∃ st2 acts, rrunlock mode e now ctx st = (st2, acts) :=
    ⟨_, _, rfl⟩
  rw [hps]
  unfold rrunlock at hps
  dsimp only at hps
  rw [hm2] at hps
  iterate 6 (all_goals (try (split at hps)); all_goals (try (dsimp only at hps)))
  all_goals
    first
      | (injection hps with h1 h2; subst h1;
         simp_all [mediaInv, radio_active, unlockPostureClear])
      | (replace hps := congrArg Prod.fst hps;
         dsimp only at hps;
         subst hps;
         exact rrunlock_tail_media _ e now _ _
           (by simp_all [unlockPostureClear_media]))

/-- C8 (amended): the exclusivity invariant — never radio-active and
audio-intent-active at once — is preserved by every listed operation except
the unlock-resume path: the tripwire listener, station play, radio restore,
stop, suspend, bind, home, search, manual and automatic panic, and rrunlock in
every mode other than resume/full all keep it; in the resume path a failed
replay leaves its half-written media fields behind, so a later different-kind
success violates it (see the counterexample). -/
theorem media_exclusive_amended (cmdName : String) (e : Env) (now : Nat)
    (ctx : Ctx) (st : St) (query : String) (rb : Option (List Station))
    (index : Int) (reason : String) (mode : Option String) (playing hasGuild : Bool)
    (hinv : mediaInv st.cfg = true)
    (hmode : resumeFlagOf mode = false) :
    mediaInv (on_command true cmdName e now ctx st).1.cfg = true ∧
    mediaInv (playstation index ctx e st).1.cfg = true ∧
    mediaInv (rrrestore ctx e st).1.cfg = true ∧
    mediaInv (stopstation ctx st).1.cfg = true ∧
    mediaInv (rrsuspend reason ctx st).1.cfg = true ∧
    mediaInv (rrbind ctx st).1.cfg = true ∧
    mediaInv (rrhome e now ctx st).1.cfg = true ∧
    mediaInv (searchstations query rb ctx e st).1.cfg = true ∧
    mediaInv (rrpanicC hasGuild playing reason st.cfg) = true ∧
    mediaInv (autopanic playing reason st.cfg) = true ∧
    mediaInv (rrunlock mode e now ctx st).1.cfg = true :=
  ⟨on_command_media cmdName e now ctx st hinv,
   playstation_media index ctx e st hinv,
   rrrestore_media ctx e st hinv,
   stopstation_media ctx st hinv,
   rrsuspend_media reason ctx st hinv,
   rrbind_media ctx st hinv,
   rrhome_media e now ctx st hinv,
   searchstations_media query rb ctx e st hinv,
   rrpanicC_media hasGuild playing reason st.cfg hinv,
   autopanic_media playing reason st.cfg hinv,
   rrunlock_media mode e now ctx st hinv hmode⟩

/-- C8 amended witness: the invariant holds of the witness configuration and is
preserved by every listed operation on it in default unlock mode. -/
theorem media_exclusive_amended_witness :
    mediaInv stWitness.cfg = true ∧ resumeFlagOf none = false ∧
    (mediaInv (on_command true "play" envIdle 5 ctxPres stWitness).1.cfg = true ∧
     mediaInv (playstation 1 ctxPres envIdle stWitness).1.cfg = true ∧
     mediaInv (rrrestore ctxPres envIdle stWitness).1.cfg = true ∧
     mediaInv (stopstation ctxPres stWitness).1.cfg = true ∧
     mediaInv (rrsuspend "r" ctxPres stWitness).1.cfg = true ∧
     mediaInv (rrbind ctxPres stWitness).1.cfg = true ∧
     mediaInv (rrhome envIdle 5 ctxPres stWitness).1.cfg = true ∧
     mediaInv (searchstations "q" none ctxPres envIdle stWitness).1.cfg = true ∧
     mediaInv (rrpanicC true false "r" stWitness.cfg) = true ∧
     mediaInv (autopanic false "r" stWitness.cfg) = true ∧
     mediaInv (rrunlock none envIdle 5 ctxPres stWitness).1.cfg = true) :=
  ⟨by decide, by decide,
   media_exclusive_amended "play" envIdle 5 ctxPres stWitness "q" none 1 "r" none
     false true (by decide) (by decide)⟩

/-- reassure_block never touches the sleep-session fields and never emits
sleep acts. -/
theorem reassure_block_sleep (c : Config) (e : TickEnv) (s : LoopState) :
    (reassure_block c e s).1.dj_in_vc_since = s.dj_in_vc_since ∧
    (reassure_block c e s).1.last_sleep_reminder = s.last_sleep_reminder ∧
    (reassure_block c e s).1.sleep_reminder_count = s.sleep_reminder_count ∧
    (reassure_block c e s).1.sleep_final_sent = s.sleep_final_sent ∧
    reminderLevels (reassure_block c e s).2 = [] ∧
    finalsCount (reassure_block c e s).2 = 0 := by
  obtain ⟨s2, acts, hps⟩ : ∃ s2 acts, reassure_block c e s = (s2, acts) := ⟨_, _, rfl⟩
  rw [hps]
  unfold reassure_block at hps
  iterate 6 (all_goals (try (split at hps)); all_goals (try (dsimp only at hps)))
  all_goals injection hps with h1 h2
  all_goals subst h1
  all_goals subst h2
  all_goals simp_all [reminderLevels, finalsCount]

/-- One sleep_block call either does nothing or emits exactly one reminder at
the next ladder level, bumping the counter, stamping the time, and sending the
one-shot final exactly on the step from two to three. -/
theorem sleep_block_spec (c : Config) (e : TickEnv) (s : LoopState)
    (hf : s.sleep_final_sent = decide (3 ≤ s.sleep_reminder_count)) :
    sleep_block c e s = (s, []) ∨
    ((sleep_block c e s).1 = { s with
        last_sleep_reminder := e.now,
        sleep_reminder_count := s.sleep_reminder_count + 1,
        sleep_final_sent := decide (3 ≤ s.sleep_reminder_count + 1) } ∧
      (sleep_block c e s).2 =
        Act.reminder (min (s.sleep_reminder_count + 1) 3) ((e.now - s.dj_in_vc_since) / 60) ::
          (if s.sleep_reminder_count = 2 then [Act.finalNote] else []) ∧
      0 < s.dj_in_vc_since ∧
      (s.last_sleep_reminder = 0 ∨
        max 10 (c.dj_sleep_repeat_minutes.getD 0) * 60 ≤
          ((e.now - s.last_sleep_reminder : Nat) : Int))) := by
  obtain ⟨s2, acts, hps⟩ : ∃ s2 acts, sleep_block c e s = (s2, acts) := ⟨_, _, rfl⟩
  rw [hps]
  unfold sleep_block at hps
  iterate 8 (all_goals (try (split at hps)); all_goals (try (dsimp only at hps)))
  all_goals injection hps with h1 h2
  all_goals subst h1
  all_goals subst h2
  all_goals try (exact Or.inl rfl)
  all_goals refine Or.inr ⟨?_, ?_, by omega, by assumption⟩
  all_goals simp_all
  all_goals
    first
      | omega
      | exact ⟨by omega, by omega⟩
      | (refine ⟨by omega, ?_⟩; rw [if_pos (by omega)])

theorem reminderLevels_append (a b : List Act) :
    reminderLevels (a ++ b) = reminderLevels a ++ reminderLevels b := by
  simp [reminderLevels]

theorem finalsCount_append (a b : List Act) :
    finalsCount (a ++ b) = finalsCount a + finalsCount b := by
  simp [finalsCount]

theorem levelsSeq_succ (n : Nat) :
    levelsSeq (n + 1) = levelsSeq n ++ [min (n + 1) 3] := by
  simp [levelsSeq, List.range_succ]

theorem sleep_block_gate (c : Config) (e : TickEnv) (s : LoopState)
    (h : e.dj_in_vc = false) : sleep_block c e s = (s, []) := by
  unfold sleep_block
  simp [h]

theorem sleep_block_fire (c : Config) (e : TickEnv) (s : LoopState)
    (hfire : (sleep_block c e s).2 ≠ []) :
    (s.last_sleep_reminder = 0 ∨
      max 10 (c.dj_sleep_repeat_minutes.getD 0) * 60 ≤
        ((e.now - s.last_sleep_reminder : Nat) : Int)) ∧
    (sleep_block c e s).1.last_sleep_reminder = e.now := by
  obtain ⟨s2, acts, hps⟩ : ∃ s2 acts, sleep_block c e s = (s2, acts) := ⟨_, _, rfl⟩
  rw [hps] at hfire ⊢
  unfold sleep_block at hps
  iterate 8 (all_goals (try (split at hps)); all_goals (try (dsimp only at hps)))
  all_goals injection hps with h1 h2
  all_goals subst h1
  all_goals subst h2
  all_goals simp_all

theorem reminderLevels_fire (l m : Nat) (p : Prop) [Decidable p] :
    reminderLevels (Act.reminder l m :: (if p then [Act.finalNote] else [])) = [l] := by
  split <;> simp [reminderLevels]

theorem finalsCount_fire (l m : Nat) (p : Prop) [Decidable p] :
    finalsCount (Act.reminder l m :: (if p then [Act.finalNote] else [])) =
      (if p then 1 else 0) := by
  split <;> simp [finalsCount]

theorem tick_session_inv (c : Config) (e : TickEnv) (s : LoopState) (acts : List Act)
    (hg : gates_pass c = true) (he : presentT e = true)
    (hI : sessionInv (s, acts)) :
    sessionInv ((reassure_tick c e s).1, acts ++ (reassure_tick c e s).2) := by
  simp only [gates_pass, Bool.and_eq_true, Bool.not_eq_true'] at hg
  obtain ⟨⟨⟨⟨⟨hb, hpl⟩, hsus⟩, hga⟩, hvc⟩, hdj⟩ := hg
  simp only [presentT, Bool.and_eq_true] at he
  obtain ⟨⟨⟨hgf, hbh⟩, hmf⟩, hdjv⟩ := he
  obtain ⟨hc, hfn, hz, hlv, hfc⟩ := hI
  dsimp only at hc hfn hz hlv hfc
  obtain ⟨s2, acts2, hps⟩ : ∃ s2 acts2, reassure_tick c e s = (s2, acts2) := ⟨_, _, rfl⟩
  rw [hps]
  unfold reassure_tick at hps
  rw [if_neg (by simp [hb]), if_neg (by simp [hpl]), if_neg (by simp [hsus]),
      if_neg (by
        simp only [Option.isSome_iff_ne_none] at hga hvc hdj
        tauto),
      if_neg (by simp [hgf]), if_neg (by simp [hbh]), if_neg (by simp [hmf])] at hps
  dsimp only at hps
  rw [if_pos hdjv] at hps
  have hM : ∃ s1 : LoopState,
      (if s.dj_in_vc_since = 0 then
        { s with dj_in_vc_since := e.now, last_sleep_reminder := 0,
                 sleep_reminder_count := 0, sleep_final_sent := false }
       else s) = s1 ∧
      s1.sleep_reminder_count = (reminderLevels acts).length ∧
      s1.sleep_final_sent = decide (3 ≤ (reminderLevels acts).length) ∧
      (s1.dj_in_vc_since = 0 → s1.sleep_reminder_count = 0) := by
    split
    case isTrue hsz =>
      refine ⟨_, rfl, ?_, ?_, ?_⟩ <;>
        simp only [] <;>
        first
          | omega
          | (have h0 : (reminderLevels acts).length = 0 := by
               have := hz hsz; omega
             simp [h0])
    case isFalse hsz => exact ⟨s, rfl, hc, hfn, hz⟩
  obtain ⟨s1, hs1eq, hc1, hf1, hz1⟩ := hM
  rw [hs1eq] at hps
  injection hps with h1 h2
  subst h1
  subst h2
  rcases sleep_block_spec c e s1 (by rw [hf1, hc1]) with hq | ⟨hst, hacts, hs1p, hsep⟩
  · rw [hq]
    obtain ⟨q1, q2, q3, q4, q5, q6⟩ := reassure_block_sleep c e s1
    unfold sessionInv
    simp only [reminderLevels_append, finalsCount_append, q1, q2, q3, q4, q5, q6,
      List.append_nil, List.nil_append]
    exact ⟨hc1, hf1, hz1, hlv, hfc⟩
  · rw [hst, hacts]
    obtain ⟨q1, q2, q3, q4, q5, q6⟩ := reassure_block_sleep c e
      { s1 with last_sleep_reminder := e.now,
                sleep_reminder_count := s1.sleep_reminder_count + 1,
                sleep_final_sent := decide (3 ≤ s1.sleep_reminder_count + 1) }
    unfold sessionInv
    simp only [reminderLevels_append, finalsCount_append, reminderLevels_fire,
      finalsCount_fire, q1, q2, q3, q4, q5, q6, List.append_nil, List.nil_append,
      List.length_append, List.length_singleton]
    refine ⟨by rw [hc1], by rw [hc1], fun h => absurd h (by omega), ?_, ?_⟩
    · rw [hc1, levelsSeq_succ, ← hlv]
    · rw [hfc, hc1]
      split_ifs <;> omega

theorem sessionInv_start (s0 : LoopState)
    (h1 : s0.dj_in_vc_since = 0) (h2 : s0.last_sleep_reminder = 0)
    (h3 : s0.sleep_reminder_count = 0) (h4 : s0.sleep_final_sent = false) :
    sessionInv (s0, []) := by
  unfold sessionInv
  simp [reminderLevels, finalsCount, levelsSeq, h3, h4]

theorem reassure_foldl_inv (c : Config) (hg : gates_pass c = true) :
    ∀ (ts : List TickEnv) (p : LoopState × List Act),
      (∀ e ∈ ts, presentT e = true) → sessionInv p →
      sessionInv (ts.foldl (fun acc e =>
        ((reassure_tick c e acc.1).1, acc.2 ++ (reassure_tick c e acc.1).2)) p) := by
  intro ts
  induction ts with
  | nil => intro p _ hI; exact hI
  | cons e ts ih =>
      intro p hts hI
      simp only [List.foldl_cons]
      exact ih _ (fun x hx => hts x (List.mem_cons_of_mem _ hx))
        (tick_session_inv c e p.1 p.2 hg (hts e (List.mem_cons_self _ _)) hI)

theorem tick_reset (c : Config) (e : TickEnv) (s : LoopState)
    (hg : gates_pass c = true) (hgf : e.guild_found = true)
    (habs : e.bot_home = false ∨ (e.member_found = true ∧ e.dj_in_vc = false)) :
    (reassure_tick c e s).1.dj_in_vc_since = 0 ∧
    (reassure_tick c e s).1.last_sleep_reminder = 0 ∧
    (reassure_tick c e s).1.sleep_reminder_count = 0 ∧
    (reassure_tick c e s).1.sleep_final_sent = false := by
  simp only [gates_pass, Bool.and_eq_true, Bool.not_eq_true'] at hg
  obtain ⟨⟨⟨⟨⟨hb, hpl⟩, hsus⟩, hga⟩, hvc⟩, hdj⟩ := hg
  obtain ⟨s2, acts2, hps⟩ : ∃ s2 acts2, reassure_tick c e s = (s2, acts2) := ⟨_, _, rfl⟩
  rw [hps]
  unfold reassure_tick at hps
  rw [if_neg (by simp [hb]), if_neg (by simp [hpl]), if_neg (by simp [hsus]),
      if_neg (by
        simp only [Option.isSome_iff_ne_none] at hga hvc hdj
        tauto),
      if_neg (by simp [hgf])] at hps
  rcases habs with hnh | ⟨hmf, hdjv⟩
  · rw [if_pos (by simp [hnh])] at hps
    injection hps with h1 h2
    subst h1
    simp [resetSleep]
  · cases hbh : e.bot_home with
    | false =>
        rw [if_pos (by simp [hbh])] at hps
        injection hps with h1 h2
        subst h1
        simp [resetSleep]
    | true =>
        rw [if_neg (by simp [hbh]), if_neg (by simp [hmf])] at hps
        dsimp only at hps
        rw [if_neg (by simp [hdjv]), sleep_block_gate c e (resetSleep s) hdjv] at hps
        dsimp only at hps
        injection hps with h1 h2
        subst h1
        obtain ⟨q1, q2, q3, q4, q5, q6⟩ := reassure_block_sleep c e (resetSleep s)
        simp only [q1, q2, q3, q4]
        simp [resetSleep]

/-- C9: in one continuous session of the protected user present in the
registered voice channel, the sleep reminders escalate as 1, 2, 3, 3, ... in
order, the one-shot final message is sent exactly once per session (exactly
when the session reaches the third reminder), and a tick on which the bot has
lost home status or the user has left the channel resets the session timer,
the reminder count, the last-reminder stamp, and the final-sent flag. -/
theorem sleep_escalation_order (c : Config) (ts : List TickEnv) (s0 : LoopState)
    (hg : gates_pass c = true)
    (hs0 : s0.dj_in_vc_since = 0 ∧ s0.last_sleep_reminder = 0 ∧
      s0.sleep_reminder_count = 0 ∧ s0.sleep_final_sent = false)
    (hts : ∀ e ∈ ts, presentT e = true) :
    reminderLevels (reassure_run c ts s0).2 =
      levelsSeq (reminderLevels (reassure_run c ts s0).2).length ∧
    finalsCount (reassure_run c ts s0).2 =
      (if 3 ≤ (reminderLevels (reassure_run c ts s0).2).length then 1 else 0) ∧
    ∀ (e : TickEnv) (s : LoopState), e.guild_found = true →
      (e.bot_home = false ∨ (e.member_found = true ∧ e.dj_in_vc = false)) →
      (reassure_tick c e s).1.dj_in_vc_since = 0 ∧
      (reassure_tick c e s).1.last_sleep_reminder = 0 ∧
      (reassure_tick c e s).1.sleep_reminder_count = 0 ∧
      (reassure_tick c e s).1.sleep_final_sent = false := by
  obtain ⟨h1, h2, h3, h4⟩ := hs0
  have hrun := reassure_foldl_inv c hg ts (s0, [])
    hts (sessionInv_start s0 h1 h2 h3 h4)
  have heq : reassure_run c ts s0 = ts.foldl (fun acc e =>
      ((reassure_tick c e acc.1).1, acc.2 ++ (reassure_tick c e acc.1).2)) (s0, []) := rfl
  rw [heq]
  obtain ⟨hc, hfn, hz, hlv, hfc⟩ := hrun
  exact ⟨hlv, hfc, fun e s hgf habs => tick_reset c e s hg hgf habs⟩

/-- C9 witness: with the one-minute-threshold config and five present ticks,
the reminders come out at levels 1, 2, 3, 3 with exactly one final message,
matching the escalation ladder, and the theorem applies. -/
theorem sleep_escalation_order_witness :
    (gates_pass cSleep = true ∧
     reminderLevels (reassure_run cSleep
        [presentTick 100, presentTick 200, presentTick 900, presentTick 1600,
         presentTick 2300] resetState0).2 = [1, 2, 3, 3] ∧
     finalsCount (reassure_run cSleep
        [presentTick 100, presentTick 200, presentTick 900, presentTick 1600,
         presentTick 2300] resetState0).2 = 1) ∧
    (reminderLevels (reassure_run cSleep
        [presentTick 100, presentTick 200, presentTick 900, presentTick 1600,
         presentTick 2300] resetState0).2 =
      levelsSeq (reminderLevels (reassure_run cSleep
        [presentTick 100, presentTick 200, presentTick 900, presentTick 1600,
         presentTick 2300] resetState0).2).length ∧
     finalsCount (reassure_run cSleep
        [presentTick 100, presentTick 200, presentTick 900, presentTick 1600,
         presentTick 2300] resetState0).2 =
      (if 3 ≤ (reminderLevels (reassure_run cSleep
        [presentTick 100, presentTick 200, presentTick 900, presentTick 1600,
         presentTick 2300] resetState0).2).length then 1 else 0) ∧
     ∀ (e : TickEnv) (s : LoopState), e.guild_found = true →
      (e.bot_home = false ∨ (e.member_found = true ∧ e.dj_in_vc = false)) →
      (reassure_tick cSleep e s).1.dj_in_vc_since = 0 ∧
      (reassure_tick cSleep e s).1.last_sleep_reminder = 0 ∧
      (reassure_tick cSleep e s).1.sleep_reminder_count = 0 ∧
      (reassure_tick cSleep e s).1.sleep_final_sent = false) :=
  ⟨⟨by decide, by decide, by decide⟩,
   sleep_escalation_order cSleep
     [presentTick 100, presentTick 200, presentTick 900, presentTick 1600,
      presentTick 2300] resetState0 (by decide) (by decide) (by decide)⟩

/-- C10: the repeat cadence of sleep reminders has a hard 10-minute floor —
whenever a reminder fires on a tick of an ongoing session that already has a
stamped previous reminder, at least max(10, dj_sleep_repeat_minutes) minutes
(in seconds) have passed since that stamp, whatever the configured value
(below 10, zero, or unset), and the stamp is updated to the tick time. -/
theorem sleep_repeat_floor (c : Config) (e : TickEnv) (s : LoopState)
    (hsince : s.dj_in_vc_since ≠ 0)
    (hlast : s.last_sleep_reminder ≠ 0)
    (hfire : reminderLevels (reassure_tick c e s).2 ≠ []) :
    max 10 (c.dj_sleep_repeat_minutes.getD 0) * 60 ≤
      ((e.now - s.last_sleep_reminder : Nat) : Int) ∧
    (reassure_tick c e s).1.last_sleep_reminder = e.now := by
  obtain ⟨s2, acts2, hps⟩ : ∃ s2 acts2, reassure_tick c e s = (s2, acts2) := ⟨_, _, rfl⟩
  rw [hps] at hfire ⊢
  unfold reassure_tick at hps
  iterate 10 (all_goals (try (split at hps)); all_goals (try (dsimp only at hps)))
  all_goals injection hps with h1 h2
  all_goals subst h1
  all_goals subst h2
  all_goals try (dsimp only)
  all_goals
    first
      | exact absurd rfl hfire
      | (exact absurd (by assumption) hsince)
      | (rename_i hdj
         rw [sleep_block_gate c e (resetSleep s) (by simpa using hdj)] at hfire
         obtain ⟨q1, q2, q3, q4, q5, q6⟩ := reassure_block_sleep c e (resetSleep s)
         simp [reminderLevels_append, q5] at hfire)
      | (obtain ⟨q1, q2, q3, q4, q5, q6⟩ := reassure_block_sleep c e (sleep_block c e s).1
         rw [reminderLevels_append, q5, List.append_nil] at hfire
         have hnn : (sleep_block c e s).2 ≠ [] := by
           intro hn
           rw [hn] at hfire
           simp [reminderLevels] at hfire
         obtain ⟨hdisj, hl⟩ := sleep_block_fire c e s hnn
         refine ⟨?_, ?_⟩
         · rcases hdisj with h0 | hsep
           · exact absurd h0 hlast
           · exact hsep
         · rw [q2, hl])

/-- C10 witness: with dj_sleep_repeat_minutes configured to 0 the effective
floor is 10 minutes; a reminder firing at second 700 against a stamp at second
100 shows exactly the 600-second floor, and the stamp moves to 700. -/
theorem sleep_repeat_floor_witness :
    ((⟨40, 100, 1, false, 0, 0⟩ : LoopState).dj_in_vc_since ≠ 0 ∧
     (⟨40, 100, 1, false, 0, 0⟩ : LoopState).last_sleep_reminder ≠ 0 ∧
     reminderLevels
       (reassure_tick cSleep (presentTick 700) ⟨40, 100, 1, false, 0, 0⟩).2 ≠ []) ∧
    (max 10 (cSleep.dj_sleep_repeat_minutes.getD 0) * 60 ≤
      (((presentTick 700).now -
          (⟨40, 100, 1, false, 0, 0⟩ : LoopState).last_sleep_reminder : Nat) : Int) ∧
     (reassure_tick cSleep (presentTick 700)
        ⟨40, 100, 1, false, 0, 0⟩).1.last_sleep_reminder = (presentTick 700).now) :=
  ⟨⟨by decide, by decide, by decide⟩,
   sleep_repeat_floor cSleep (presentTick 700) ⟨40, 100, 1, false, 0, 0⟩
     (by decide) (by decide) (by decide)⟩
